import Mathlib

/-!
# GL3ProgramObjectProvider

A shallow embedding of `Sources/GL/GL3/gl3_program_object_provider.cpp`
(ClanLib): the OpenGL 3 program object, its reflection caches, its
diagnostic-log reader and the scoped program binding used by the uniform
setters.

The C++ object and the OpenGL driver are mutable; here every operation takes
the provider and the world (driver state, activation outcome, trace of
events) and returns the result together with the provider and the world it
leaves behind. An exception leaves the state reached so far, as in C++.

Texts are lists of characters. `StringHelp::local8_to_text` and
`StringHelp::text_to_local8` convert between two spellings of the same text
and are not written out; a name is a C string, so the buffer read up to its
terminator and the buffer read up to the reported length are the same text.
The constructor and the disposal registry (`SharedGCData`) take no part in
what is proved here.
-/

namespace clan

/-! ## The OpenGL side -/

/-- The `pname` values this file passes to `glGetProgramiv`. -/
inductive ProgramParam
  | GL_LINK_STATUS
  | GL_VALIDATE_STATUS
  | GL_ACTIVE_ATTRIBUTES
  | GL_ACTIVE_ATTRIBUTE_MAX_LENGTH
  | GL_ACTIVE_UNIFORMS
  | GL_ACTIVE_UNIFORM_MAX_LENGTH
  deriving DecidableEq, Repr

/-- The OpenGL entry points called by the provider, with the arguments that
are passed by value. -/
inductive GLCall
  | glDeleteProgram (program : Nat)
  | glGetProgramiv (program : Nat) (pname : ProgramParam)
  | glGetProgramInfoLog (program : Nat) (bufSize : Int)
  | glGetUniformLocation (program : Nat) (name : List Char)
  | glGetAttribLocation (program : Nat) (name : List Char)
  | glGetActiveUniformBlockiv (program : Nat) (block_index : Int)
  | glGetUniformBlockIndex (program : Nat) (name : List Char)
  | glGetProgramResourceIndex (program : Nat) (name : List Char)
  | glAttachShader (program : Nat) (shader : Nat)
  | glDetachShader (program : Nat) (shader : Nat)
  | glBindAttribLocation (program : Nat) (index : Int) (name : List Char)
  | glBindFragDataLocation (program : Nat) (color_number : Int) (name : List Char)
  | glLinkProgram (program : Nat)
  | glValidateProgram (program : Nat)
  | glGetActiveAttrib (program : Nat) (index : Nat) (bufSize : Int)
  | glGetActiveUniform (program : Nat) (index : Nat) (bufSize : Int)
  | glGetIntegerv_CURRENT_PROGRAM
  | glUseProgram (program : Nat)
  | glUniform1i (location : Int) (v0 : Int)
  | glUniformBlockBinding (program : Nat) (block_index : Int) (bind_index : Int)
  | glShaderStorageBlockBinding (program : Nat) (buffer_index : Int) (bind_unit_index : Int)
  deriving DecidableEq, Repr

/-- What the trace records: an attempt to activate the context
(`OpenGL::set_active()`), or a call into the driver. -/
inductive Event
  | set_active
  | gl (c : GLCall)
  deriving DecidableEq, Repr

/-- What `glGetActiveUniform` / `glGetActiveAttrib` report for one index. -/
structure ActiveInfo where
  name : List Char
  size : Int
  type : Nat
  deriving DecidableEq, Repr

/-- The driver state the provider can observe. Every query is answered from
it; the fields are arbitrary, so a theorem over all `GLState` holds for
whatever the driver holds. -/
structure GLState where
  /-- the program made current by the last `glUseProgram` -/
  current_program : Nat
  /-- integer uniforms written so far: program current at the write,
  location, value -/
  uniform1i_store : List (Nat × Int × Int)
  program_iv : Nat → ProgramParam → Int
  info_log : Nat → List Char
  active_attrib : Nat → Nat → ActiveInfo
  active_uniform : Nat → Nat → ActiveInfo
  attrib_location : Nat → List Char → Int
  uniform_location : Nat → List Char → Int
  uniform_block_data_size : Nat → Int → Int
  uniform_block_index : Nat → List Char → Int
  shader_storage_block_index : Nat → List Char → Int

/-- Everything outside the provider object: the driver state, how the driver
reacts to the state-changing calls that are not modelled in detail (link,
validate, attach, ...), whether the context can be activated, which optional
entry points were loaded, and the trace of events so far. -/
structure World where
  gl : GLState
  mutate : GLCall → GLState → GLState
  context_ok : Bool
  has_glGetActiveUniformBlockiv : Bool
  has_glGetUniformBlockIndex : Bool
  has_glGetProgramResourceIndex : Bool
  log : List Event

/-- Append a driver call to the trace. -/
def World.record (w : World) (c : GLCall) : World :=
  { w with log := w.log ++ [Event.gl c] }

/-- A state-changing driver call whose effect is left to `World.mutate`. -/
def World.command (w : World) (c : GLCall) : World :=
  { w with gl := w.mutate c w.gl, log := w.log ++ [Event.gl c] }

/-- Modelled from the spec: `OpenGL::set_active()` belongs to the OpenGL
API headers, which are not part of the sources at hand. It tries to
make the owning context current for the calling thread and tells whether it
did; `on_dispose` tests that result. -/
def OpenGL.set_active (w : World) : Bool × World :=
  (w.context_ok, { w with log := w.log ++ [Event.set_active] })

def glDeleteProgram (program : Nat) (w : World) : World :=
  w.command (GLCall.glDeleteProgram program)

def glGetProgramiv (program : Nat) (pname : ProgramParam) (w : World) : Int × World :=
  (w.gl.program_iv program pname, w.record (GLCall.glGetProgramiv program pname))

/-- The driver copies at most `bufSize - 1` characters of the text and reports
how many it copied. Returns `(length, infoLog)`. -/
def glGetProgramInfoLog (program : Nat) (bufSize : Int) (w : World) :
    (Int × List Char) × World :=
  let copied := (w.gl.info_log program).take (bufSize - 1).toNat
  (((copied.length : Int), copied), w.record (GLCall.glGetProgramInfoLog program bufSize))

def glGetUniformLocation (program : Nat) (name : List Char) (w : World) : Int × World :=
  (w.gl.uniform_location program name, w.record (GLCall.glGetUniformLocation program name))

def glGetAttribLocation (program : Nat) (name : List Char) (w : World) : Int × World :=
  (w.gl.attrib_location program name, w.record (GLCall.glGetAttribLocation program name))

def glGetActiveUniformBlockiv (program : Nat) (block_index : Int) (w : World) : Int × World :=
  (w.gl.uniform_block_data_size program block_index,
    w.record (GLCall.glGetActiveUniformBlockiv program block_index))

def glGetUniformBlockIndex (program : Nat) (name : List Char) (w : World) : Int × World :=
  (w.gl.uniform_block_index program name, w.record (GLCall.glGetUniformBlockIndex program name))

def glGetProgramResourceIndex (program : Nat) (name : List Char) (w : World) : Int × World :=
  (w.gl.shader_storage_block_index program name,
    w.record (GLCall.glGetProgramResourceIndex program name))

def glAttachShader (program : Nat) (shader : Nat) (w : World) : World :=
  w.command (GLCall.glAttachShader program shader)

def glDetachShader (program : Nat) (shader : Nat) (w : World) : World :=
  w.command (GLCall.glDetachShader program shader)

def glBindAttribLocation (program : Nat) (index : Int) (name : List Char) (w : World) : World :=
  w.command (GLCall.glBindAttribLocation program index name)

def glBindFragDataLocation (program : Nat) (color_number : Int) (name : List Char)
    (w : World) : World :=
  w.command (GLCall.glBindFragDataLocation program color_number name)

def glLinkProgram (program : Nat) (w : World) : World :=
  w.command (GLCall.glLinkProgram program)

def glValidateProgram (program : Nat) (w : World) : World :=
  w.command (GLCall.glValidateProgram program)

/-- The driver copies at most `bufSize - 1` characters of the name. The
reported length is the length of the returned name. -/
def glGetActiveAttrib (program : Nat) (index : Nat) (bufSize : Int) (w : World) :
    ActiveInfo × World :=
  let info := w.gl.active_attrib program index
  ({ info with name := info.name.take (bufSize - 1).toNat },
    w.record (GLCall.glGetActiveAttrib program index bufSize))

/-- The driver copies at most `bufSize - 1` characters of the name. The
reported length is the length of the returned name. -/
def glGetActiveUniform (program : Nat) (index : Nat) (bufSize : Int) (w : World) :
    ActiveInfo × World :=
  let info := w.gl.active_uniform program index
  ({ info with name := info.name.take (bufSize - 1).toNat },
    w.record (GLCall.glGetActiveUniform program index bufSize))

def glGetIntegerv_CURRENT_PROGRAM (w : World) : Nat × World :=
  (w.gl.current_program, w.record GLCall.glGetIntegerv_CURRENT_PROGRAM)

/-- The driver makes `program` the current program. -/
def glUseProgram (program : Nat) (w : World) : World :=
  { w with gl := { w.gl with current_program := program },
           log := w.log ++ [Event.gl (GLCall.glUseProgram program)] }

/-- The driver writes the value into the uniform of the current program. -/
def glUniform1i (location : Int) (v0 : Int) (w : World) : World :=
  { w with gl := { w.gl with uniform1i_store :=
                     w.gl.uniform1i_store ++ [(w.gl.current_program, location, v0)] },
           log := w.log ++ [Event.gl (GLCall.glUniform1i location v0)] }

def glUniformBlockBinding (program : Nat) (block_index : Int) (bind_index : Int)
    (w : World) : World :=
  w.command (GLCall.glUniformBlockBinding program block_index bind_index)

def glShaderStorageBlockBinding (program : Nat) (buffer_index : Int) (bind_unit_index : Int)
    (w : World) : World :=
  w.command (GLCall.glShaderStorageBlockBinding program buffer_index bind_unit_index)

/-! ## The provider -/

/-- Modelled from the spec: `ShaderObject` is declared in
`API/Display/Render/shader_object.h`, which is not part of the sources at
hand: "an opaque compiled-shader handle and equality comparison (for
detach-by-value)". `impl` is the shared implementation `operator==` compares,
`handle` is what `get_handle()` returns. -/
structure ShaderObject where
  impl : Nat
  handle : Nat
  deriving DecidableEq, Repr

/-- Modelled from the spec: `ProgramAttribute` is declared in
`API/Display/Render/program_attribute.h`, which is not part of the sources at
hand. A reflection entry has a name, an array size, a driver type tag and a
location; the constructor call in `fetch_attributes` gives them in this
order. -/
structure ProgramAttribute where
  name : List Char
  size : Int
  type : Nat
  location : Int
  deriving DecidableEq, Repr

/-- Modelled from the spec: `ProgramUniform` is declared in
`API/Display/Render/program_uniform.h`, which is not part of the sources at
hand. A reflection entry has a name, an array size, a driver type tag and a
location; the constructor call in `fetch_uniforms` gives them in this
order. -/
structure ProgramUniform where
  name : List Char
  size : Int
  type : Nat
  location : Int
  deriving DecidableEq, Repr

/-- The fields of `GL3ProgramObjectProvider`, with the `disposed` flag of its
base class `DisposableObject`. -/
structure GL3ProgramObjectProvider where
  disposed : Bool
  handle : Nat
  shaders : List ShaderObject
  cached_attribs : List ProgramAttribute
  cached_uniforms : List ProgramUniform
  deriving DecidableEq, Repr

/-- How these operations fail: the two exceptions thrown in this file, the
exception of `new[]` for a negative array length, and undefined behaviour
(a write outside the buffer, a signed overflow), after which nothing is
promised. -/
inductive Error
  | object_disposed
  | incorrect_opengl_version
  | bad_alloc
  | undefined_behaviour
  deriving DecidableEq, Repr

/-- How a call ends: its value or the exception thrown, and the provider and
world it leaves. -/
structure Outcome (α : Type) where
  result : Except Error α
  self : GL3ProgramObjectProvider
  world : World

/-- Modelled from the spec: `DisposableObject::throw_if_disposed` is declared
in a header that is not part of the sources at hand. "All read/write
operations first check `disposed`; if true, fail with a disposed-resource
error." Returns the exception to throw, if any. -/
def throw_if_disposed (p : GL3ProgramObjectProvider) : Option Error :=
  if p.disposed then some Error.object_disposed else none

def on_dispose (p : GL3ProgramObjectProvider) (w : World) : World :=
  if p.handle ≠ 0 then
    let (activated, w) := OpenGL.set_active w
    if activated then glDeleteProgram p.handle w else w
  else w

/-- Modelled from the spec: `DisposableObject::dispose` is declared in a
header that is not part of the sources at hand. "Disposal is idempotent — a
second disposal call is a no-op"; `disposed` is "monotonic — once true, never
false again". The first call runs `on_dispose` (from the source, which leaves
`handle` as it is) and sets the flag. -/
def dispose (p : GL3ProgramObjectProvider) (w : World) : GL3ProgramObjectProvider × World :=
  if p.disposed then (p, w) else ({ p with disposed := true }, on_dispose p w)

def get_handle (p : GL3ProgramObjectProvider) (w : World) : Outcome Nat :=
  match throw_if_disposed p with
  | some e => ⟨.error e, p, w⟩
  | none => ⟨.ok p.handle, p, w⟩

def get_link_status (p : GL3ProgramObjectProvider) (w : World) : Outcome Bool :=
  match throw_if_disposed p with
  | some e => ⟨.error e, p, w⟩
  | none =>
    let w := (OpenGL.set_active w).2
    let (status, w) := glGetProgramiv p.handle ProgramParam.GL_LINK_STATUS w
    ⟨.ok (status != 0), p, w⟩

def get_validate_status (p : GL3ProgramObjectProvider) (w : World) : Outcome Bool :=
  match throw_if_disposed p with
  | some e => ⟨.error e, p, w⟩
  | none =>
    let w := (OpenGL.set_active w).2
    let (status, w) := glGetProgramiv p.handle ProgramParam.GL_VALIDATE_STATUS w
    ⟨.ok (status != 0), p, w⟩

def get_shaders (p : GL3ProgramObjectProvider) (w : World) : Outcome (List ShaderObject) :=
  match throw_if_disposed p with
  | some e => ⟨.error e, p, w⟩
  | none => ⟨.ok p.shaders, p, w⟩

/-- The `while (buffer_size < 2*1024*1024)` loop of `get_info_log`. The buffer
size is positive from the start (`16*1024`) and only doubles; that is what
makes the loop end. -/
def get_info_log_loop (handle : Nat) (buffer_size : Int) (hpos : 0 < buffer_size)
    (result : List Char) (w : World) : List Char × World :=
  if buffer_size < 2 * 1024 * 1024 then
    let ((length, info_log), w) := glGetProgramInfoLog handle buffer_size w
    let result := if length < buffer_size - 1 then info_log.take length.toNat else result
    if length < buffer_size - 1 then (result, w)
    else get_info_log_loop handle (buffer_size * 2) (by omega) result w
  else (result, w)
termination_by (2 * 1024 * 1024 - buffer_size).toNat
decreasing_by omega

def get_info_log (p : GL3ProgramObjectProvider) (w : World) : Outcome (List Char) :=
  match throw_if_disposed p with
  | some e => ⟨.error e, p, w⟩
  | none =>
    let w := (OpenGL.set_active w).2
    let loop := get_info_log_loop p.handle (16 * 1024) (by decide) [] w
    ⟨.ok loop.1, p, loop.2⟩

/-- The name buffer of `fetch_uniforms` and `fetch_attributes`:
`GLchar *name = new GLchar[name_size+1]; name[name_size] = 0;` with
`name_size` a `GLint`. Returns how this fails, if it does: `name_size + 1`
overflows for the largest `GLint`; `new[]` throws for a negative length; for
`name_size = -1` the array is empty and the terminator is written before
it. With `0 ≤ name_size` the buffer holds at least the terminator, which is
what the loop's `name[0] = 0` needs. -/
def new_name_buffer (name_size : Int) : Option Error :=
  if 2147483647 ≤ name_size then some Error.undefined_behaviour
  else if name_size + 1 < 0 then some Error.bad_alloc
  else if name_size < 0 then some Error.undefined_behaviour
  else none

/-- The `for` loop of `fetch_uniforms`: one `glGetActiveUniform` and one
`glGetUniformLocation` per index, the entry pushed at the back. -/
def fetch_uniforms_loop (handle : Nat) (name_size : Int) (count : Int)
    (cached_uniforms : List ProgramUniform) (w : World) : List ProgramUniform × World :=
  (List.range count.toNat).foldl
    (fun acc i =>
      let (info, w) := glGetActiveUniform handle i name_size acc.2
      let uniform_name := info.name
      let (loc, w) := glGetUniformLocation handle info.name w
      (acc.1 ++ [ProgramUniform.mk uniform_name info.size info.type loc], w))
    (cached_uniforms, w)

def fetch_uniforms (p : GL3ProgramObjectProvider) (w : World) : Outcome Unit :=
  if ¬ p.cached_uniforms.isEmpty then ⟨.ok (), p, w⟩
  else
    let w := (OpenGL.set_active w).2
    let (count, w) := glGetProgramiv p.handle ProgramParam.GL_ACTIVE_UNIFORMS w
    let (name_size, w) := glGetProgramiv p.handle ProgramParam.GL_ACTIVE_UNIFORM_MAX_LENGTH w
    match new_name_buffer name_size with
    | some e => ⟨.error e, p, w⟩
    | none =>
      let (cached, w) := fetch_uniforms_loop p.handle name_size count p.cached_uniforms w
      ⟨.ok (), { p with cached_uniforms := cached }, w⟩

/-- The `for` loop of `fetch_attributes`. -/
def fetch_attributes_loop (handle : Nat) (name_size : Int) (count : Int)
    (cached_attribs : List ProgramAttribute) (w : World) : List ProgramAttribute × World :=
  (List.range count.toNat).foldl
    (fun acc i =>
      let (info, w) := glGetActiveAttrib handle i name_size acc.2
      let attrib_name := info.name
      let (loc, w) := glGetAttribLocation handle info.name w
      (acc.1 ++ [ProgramAttribute.mk attrib_name info.size info.type loc], w))
    (cached_attribs, w)

def fetch_attributes (p : GL3ProgramObjectProvider) (w : World) : Outcome Unit :=
  if ¬ p.cached_attribs.isEmpty then ⟨.ok (), p, w⟩
  else
    let w := (OpenGL.set_active w).2
    let (count, w) := glGetProgramiv p.handle ProgramParam.GL_ACTIVE_ATTRIBUTES w
    let (name_size, w) := glGetProgramiv p.handle ProgramParam.GL_ACTIVE_ATTRIBUTE_MAX_LENGTH w
    match new_name_buffer name_size with
    | some e => ⟨.error e, p, w⟩
    | none =>
      let (cached, w) := fetch_attributes_loop p.handle name_size count p.cached_attribs w
      ⟨.ok (), { p with cached_attribs := cached }, w⟩

def get_uniform_count (p : GL3ProgramObjectProvider) (w : World) : Outcome Int :=
  match throw_if_disposed p with
  | some e => ⟨.error e, p, w⟩
  | none =>
    let o := if p.cached_uniforms.isEmpty then fetch_uniforms p w else ⟨.ok (), p, w⟩
    match o.result with
    | .error e => ⟨.error e, o.self, o.world⟩
    | .ok _ => ⟨.ok (o.self.cached_uniforms.length : Int), o.self, o.world⟩

def get_uniforms (p : GL3ProgramObjectProvider) (w : World) : Outcome (List ProgramUniform) :=
  match throw_if_disposed p with
  | some e => ⟨.error e, p, w⟩
  | none =>
    let o := if p.cached_uniforms.isEmpty then fetch_uniforms p w else ⟨.ok (), p, w⟩
    match o.result with
    | .error e => ⟨.error e, o.self, o.world⟩
    | .ok _ => ⟨.ok o.self.cached_uniforms, o.self, o.world⟩

def get_uniform_location (name : List Char) (p : GL3ProgramObjectProvider) (w : World) :
    Outcome Int :=
  match throw_if_disposed p with
  | some e => ⟨.error e, p, w⟩
  | none =>
    let w := (OpenGL.set_active w).2
    let (loc, w) := glGetUniformLocation p.handle name w
    ⟨.ok loc, p, w⟩

def get_attribute_count (p : GL3ProgramObjectProvider) (w : World) : Outcome Int :=
  match throw_if_disposed p with
  | some e => ⟨.error e, p, w⟩
  | none =>
    let o := if p.cached_attribs.isEmpty then fetch_attributes p w else ⟨.ok (), p, w⟩
    match o.result with
    | .error e => ⟨.error e, o.self, o.world⟩
    | .ok _ => ⟨.ok (o.self.cached_attribs.length : Int), o.self, o.world⟩

def get_attributes (p : GL3ProgramObjectProvider) (w : World) :
    Outcome (List ProgramAttribute) :=
  match throw_if_disposed p with
  | some e => ⟨.error e, p, w⟩
  | none =>
    let o := if p.cached_attribs.isEmpty then fetch_attributes p w else ⟨.ok (), p, w⟩
    match o.result with
    | .error e => ⟨.error e, o.self, o.world⟩
    | .ok _ => ⟨.ok o.self.cached_attribs, o.self, o.world⟩

def get_attribute_location (name : List Char) (p : GL3ProgramObjectProvider) (w : World) :
    Outcome Int :=
  match throw_if_disposed p with
  | some e => ⟨.error e, p, w⟩
  | none =>
    let w := (OpenGL.set_active w).2
    let (loc, w) := glGetAttribLocation p.handle name w
    ⟨.ok loc, p, w⟩

def get_uniform_buffer_size (block_index : Int) (p : GL3ProgramObjectProvider) (w : World) :
    Outcome Int :=
  match throw_if_disposed p with
  | some e => ⟨.error e, p, w⟩
  | none =>
    let w := (OpenGL.set_active w).2
    if ¬ w.has_glGetActiveUniformBlockiv then ⟨.error Error.incorrect_opengl_version, p, w⟩
    else
      let (uniformBlockSize, w) := glGetActiveUniformBlockiv p.handle block_index w
      ⟨.ok uniformBlockSize, p, w⟩

def get_uniform_buffer_index (block_name : List Char) (p : GL3ProgramObjectProvider)
    (w : World) : Outcome Int :=
  match throw_if_disposed p with
  | some e => ⟨.error e, p, w⟩
  | none =>
    let w := (OpenGL.set_active w).2
    if ¬ w.has_glGetUniformBlockIndex then ⟨.error Error.incorrect_opengl_version, p, w⟩
    else
      let (index, w) := glGetUniformBlockIndex p.handle block_name w
      ⟨.ok index, p, w⟩

def get_storage_buffer_index (name : List Char) (p : GL3ProgramObjectProvider) (w : World) :
    Outcome Int :=
  match throw_if_disposed p with
  | some e => ⟨.error e, p, w⟩
  | none =>
    let w := (OpenGL.set_active w).2
    if ¬ w.has_glGetProgramResourceIndex then ⟨.error Error.incorrect_opengl_version, p, w⟩
    else
      let (index, w) := glGetProgramResourceIndex p.handle name w
      ⟨.ok index, p, w⟩

def attach (obj : ShaderObject) (p : GL3ProgramObjectProvider) (w : World) : Outcome Unit :=
  match throw_if_disposed p with
  | some e => ⟨.error e, p, w⟩
  | none =>
    let p := { p with shaders := p.shaders ++ [obj] }
    let w := (OpenGL.set_active w).2
    let w := glAttachShader p.handle obj.handle w
    ⟨.ok (), p, w⟩

/-- The loop of `detach`: erase the first element equal to `obj`, if any. -/
def detach_loop (obj : ShaderObject) : List ShaderObject → List ShaderObject
  | [] => []
  | s :: rest => if s = obj then rest else s :: detach_loop obj rest

def detach (obj : ShaderObject) (p : GL3ProgramObjectProvider) (w : World) : Outcome Unit :=
  match throw_if_disposed p with
  | some e => ⟨.error e, p, w⟩
  | none =>
    let p := { p with shaders := detach_loop obj p.shaders }
    let w := (OpenGL.set_active w).2
    let w := glDetachShader p.handle obj.handle w
    ⟨.ok (), p, w⟩

def bind_attribute_location (index : Int) (name : List Char) (p : GL3ProgramObjectProvider)
    (w : World) : Outcome Unit :=
  match throw_if_disposed p with
  | some e => ⟨.error e, p, w⟩
  | none =>
    let w := (OpenGL.set_active w).2
    let w := glBindAttribLocation p.handle index name w
    ⟨.ok (), p, w⟩

def bind_frag_data_location (color_number : Int) (name : List Char)
    (p : GL3ProgramObjectProvider) (w : World) : Outcome Unit :=
  match throw_if_disposed p with
  | some e => ⟨.error e, p, w⟩
  | none =>
    let w := (OpenGL.set_active w).2
    let w := glBindFragDataLocation p.handle color_number name w
    ⟨.ok (), p, w⟩

def link (p : GL3ProgramObjectProvider) (w : World) : Outcome Unit :=
  match throw_if_disposed p with
  | some e => ⟨.error e, p, w⟩
  | none =>
    let w := (OpenGL.set_active w).2
    let w := glLinkProgram p.handle w
    ⟨.ok (), { p with cached_attribs := [], cached_uniforms := [] }, w⟩

def validate (p : GL3ProgramObjectProvider) (w : World) : Outcome Unit :=
  match throw_if_disposed p with
  | some e => ⟨.error e, p, w⟩
  | none =>
    let w := (OpenGL.set_active w).2
    let w := glValidateProgram p.handle w
    ⟨.ok (), p, w⟩

/-- The scoped bind guard: what it remembers between its constructor and its
destructor. -/
structure ProgramObjectStateTracker where
  last_program_object : Nat
  program_set : Bool
  deriving DecidableEq, Repr

/-- The constructor `ProgramObjectStateTracker(handle)`. -/
def ProgramObjectStateTracker.construct (handle : Nat) (w : World) :
    ProgramObjectStateTracker × World :=
  let w := (OpenGL.set_active w).2
  let (last_program_object, w) := glGetIntegerv_CURRENT_PROGRAM w
  if handle ≠ last_program_object then
    (⟨last_program_object, true⟩, glUseProgram handle w)
  else (⟨last_program_object, false⟩, w)

/-- The destructor `~ProgramObjectStateTracker()`. -/
def ProgramObjectStateTracker.destruct (t : ProgramObjectStateTracker) (w : World) : World :=
  if t.program_set then glUseProgram t.last_program_object w else w

def set_uniform1i (location : Int) (p1 : Int) (p : GL3ProgramObjectProvider) (w : World) :
    Outcome Unit :=
  match throw_if_disposed p with
  | some e => ⟨.error e, p, w⟩
  | none =>
    if location = -1 then ⟨.ok (), p, w⟩
    else
      let (state_tracker, w) := ProgramObjectStateTracker.construct p.handle w
      let w := glUniform1i location p1 w
      let w := state_tracker.destruct w
      ⟨.ok (), p, w⟩

def set_uniform_buffer_index (block_index : Int) (bind_index : Int)
    (p : GL3ProgramObjectProvider) (w : World) : Outcome Unit :=
  match throw_if_disposed p with
  | some e => ⟨.error e, p, w⟩
  | none =>
    if block_index = -1 then ⟨.ok (), p, w⟩
    else ⟨.ok (), p, glUniformBlockBinding p.handle block_index bind_index w⟩

def set_storage_buffer_index (buffer_index : Int) (bind_unit_index : Int)
    (p : GL3ProgramObjectProvider) (w : World) : Outcome Unit :=
  match throw_if_disposed p with
  | some e => ⟨.error e, p, w⟩
  | none =>
    if buffer_index = -1 then ⟨.ok (), p, w⟩
    else ⟨.ok (), p, glShaderStorageBlockBinding p.handle buffer_index bind_unit_index w⟩

/-! ## All public operations at once -/

/-- The public operations other than disposal, with their arguments. -/
inductive Op
  | get_handle
  | get_link_status
  | get_validate_status
  | get_shaders
  | get_info_log
  | get_uniform_count
  | get_uniforms
  | get_uniform_location (name : List Char)
  | get_attribute_count
  | get_attributes
  | get_attribute_location (name : List Char)
  | get_uniform_buffer_size (block_index : Int)
  | get_uniform_buffer_index (block_name : List Char)
  | get_storage_buffer_index (name : List Char)
  | attach (obj : ShaderObject)
  | detach (obj : ShaderObject)
  | bind_attribute_location (index : Int) (name : List Char)
  | bind_frag_data_location (color_number : Int) (name : List Char)
  | link
  | validate
  | set_uniform1i (location : Int) (p1 : Int)
  | set_uniform_buffer_index (block_index : Int) (bind_index : Int)
  | set_storage_buffer_index (buffer_index : Int) (bind_unit_index : Int)
  deriving DecidableEq, Repr

/-- What an operation hands back. -/
inductive Value
  | void
  | handle (h : Nat)
  | bool (b : Bool)
  | int (i : Int)
  | text (s : List Char)
  | shaders (l : List ShaderObject)
  | uniforms (l : List ProgramUniform)
  | attributes (l : List ProgramAttribute)
  deriving DecidableEq, Repr

def Outcome.as {α : Type} (f : α → Value) (o : Outcome α) : Outcome Value :=
  ⟨o.result.map f, o.self, o.world⟩

/-- Run one public operation. -/
def Op.run : Op → GL3ProgramObjectProvider → World → Outcome Value
  | .get_handle, p, w => (clan.get_handle p w).as Value.handle
  | .get_link_status, p, w => (clan.get_link_status p w).as Value.bool
  | .get_validate_status, p, w => (clan.get_validate_status p w).as Value.bool
  | .get_shaders, p, w => (clan.get_shaders p w).as Value.shaders
  | .get_info_log, p, w => (clan.get_info_log p w).as Value.text
  | .get_uniform_count, p, w => (clan.get_uniform_count p w).as Value.int
  | .get_uniforms, p, w => (clan.get_uniforms p w).as Value.uniforms
  | .get_uniform_location name, p, w => (clan.get_uniform_location name p w).as Value.int
  | .get_attribute_count, p, w => (clan.get_attribute_count p w).as Value.int
  | .get_attributes, p, w => (clan.get_attributes p w).as Value.attributes
  | .get_attribute_location name, p, w => (clan.get_attribute_location name p w).as Value.int
  | .get_uniform_buffer_size i, p, w => (clan.get_uniform_buffer_size i p w).as Value.int
  | .get_uniform_buffer_index n, p, w => (clan.get_uniform_buffer_index n p w).as Value.int
  | .get_storage_buffer_index n, p, w => (clan.get_storage_buffer_index n p w).as Value.int
  | .attach obj, p, w => (clan.attach obj p w).as (fun _ => Value.void)
  | .detach obj, p, w => (clan.detach obj p w).as (fun _ => Value.void)
  | .bind_attribute_location i n, p, w =>
      (clan.bind_attribute_location i n p w).as (fun _ => Value.void)
  | .bind_frag_data_location c n, p, w =>
      (clan.bind_frag_data_location c n p w).as (fun _ => Value.void)
  | .link, p, w => (clan.link p w).as (fun _ => Value.void)
  | .validate, p, w => (clan.validate p w).as (fun _ => Value.void)
  | .set_uniform1i l v, p, w => (clan.set_uniform1i l v p w).as (fun _ => Value.void)
  | .set_uniform_buffer_index b i, p, w =>
      (clan.set_uniform_buffer_index b i p w).as (fun _ => Value.void)
  | .set_storage_buffer_index b i, p, w =>
      (clan.set_storage_buffer_index b i p w).as (fun _ => Value.void)

/-! ## Sample inputs -/

def shader_A : ShaderObject := ⟨1, 11⟩

def shader_B : ShaderObject := ⟨2, 12⟩

/-- A driver state: program 3 has two active uniforms and one active
attribute; program 7 is current. -/
def sample_gl : GLState where
  current_program := 7
  uniform1i_store := []
  program_iv := fun _ pname =>
    match pname with
    | .GL_LINK_STATUS => 1
    | .GL_VALIDATE_STATUS => 0
    | .GL_ACTIVE_ATTRIBUTES => 1
    | .GL_ACTIVE_ATTRIBUTE_MAX_LENGTH => 4
    | .GL_ACTIVE_UNIFORMS => 2
    | .GL_ACTIVE_UNIFORM_MAX_LENGTH => 4
  info_log := fun _ => ['o', 'k']
  active_attrib := fun _ _ => ⟨['p', 'o', 's'], 1, 35666⟩
  active_uniform := fun _ i => if i = 0 then ⟨['m', 'v', 'p'], 1, 35676⟩ else ⟨['t', 'e', 'x'], 1, 35678⟩
  attrib_location := fun _ _ => 0
  uniform_location := fun _ name => if name = ['m', 'v', 'p'] then 0 else 1
  uniform_block_data_size := fun _ _ => 64
  uniform_block_index := fun _ _ => -1
  shader_storage_block_index := fun _ _ => -1

/-- A world whose context can be activated. -/
def sample_world : World where
  gl := sample_gl
  mutate := fun _ g => g
  context_ok := true
  has_glGetActiveUniformBlockiv := true
  has_glGetUniformBlockIndex := true
  has_glGetProgramResourceIndex := true
  log := []

/-- The same world with a context that cannot be activated. -/
def lost_context_world : World := { sample_world with context_ok := false }

/-- A world whose driver reports no active uniform and no active attribute. -/
def bare_world : World :=
  { sample_world with gl := { sample_gl with program_iv := fun _ _ => 0 } }

/-- A world whose driver holds the given diagnostic text for every program. -/
def world_with_info_log (text : List Char) : World :=
  { sample_world with gl := { sample_gl with info_log := fun _ => text } }

/-- A live program with handle 3, nothing attached, nothing cached. -/
def sample_program : GL3ProgramObjectProvider := ⟨false, 3, [], [], []⟩

/-- A live program that already has `shader_A` attached. -/
def program_with_A : GL3ProgramObjectProvider := ⟨false, 3, [shader_A], [], []⟩

/-- A disposed program. -/
def disposed_program : GL3ProgramObjectProvider := ⟨true, 3, [shader_A], [], []⟩

/-- The call sequence `attach(obj); detach(obj)`. -/
def attach_then_detach (obj : ShaderObject) (p : GL3ProgramObjectProvider) (w : World) :
    Outcome Unit :=
  let o := attach obj p w
  detach obj o.self o.world

/-- The trace of the queries that open an enumeration of the active
uniforms: the activation attempt, the count, the maximum name length. -/
def uniform_count_events (handle : Nat) : List Event :=
  [Event.set_active,
    Event.gl (GLCall.glGetProgramiv handle ProgramParam.GL_ACTIVE_UNIFORMS),
    Event.gl (GLCall.glGetProgramiv handle ProgramParam.GL_ACTIVE_UNIFORM_MAX_LENGTH)]

/-- The trace of the queries that open an enumeration of the active
attributes. -/
def attribute_count_events (handle : Nat) : List Event :=
  [Event.set_active,
    Event.gl (GLCall.glGetProgramiv handle ProgramParam.GL_ACTIVE_ATTRIBUTES),
    Event.gl (GLCall.glGetProgramiv handle ProgramParam.GL_ACTIVE_ATTRIBUTE_MAX_LENGTH)]

/-- A world whose driver reports `-2` for every `glGetProgramiv` value, the
maximum name lengths among them. -/
def negative_length_world : World :=
  { sample_world with gl := { sample_gl with program_iv := fun _ _ => -2 } }

/-- The call sequence `get_uniforms(); get_uniforms()`: the outcome of the
second call. -/
def second_get_uniforms (p : GL3ProgramObjectProvider) (w : World) :
    Outcome (List ProgramUniform) :=
  let o := get_uniforms p w
  get_uniforms o.self o.world

/-- The call sequence `get_attributes(); get_attributes()`: the outcome of the
second call. -/
def second_get_attributes (p : GL3ProgramObjectProvider) (w : World) :
    Outcome (List ProgramAttribute) :=
  let o := get_attributes p w
  get_attributes o.self o.world

/-- The call sequence `link(); get_uniforms()`: the outcome of the read. -/
def get_uniforms_after_link (p : GL3ProgramObjectProvider) (w : World) :
    Outcome (List ProgramUniform) :=
  let o := link p w
  get_uniforms o.self o.world

/-- The call sequence `link(); get_attributes()`: the outcome of the read. -/
def get_attributes_after_link (p : GL3ProgramObjectProvider) (w : World) :
    Outcome (List ProgramAttribute) :=
  let o := link p w
  get_attributes o.self o.world

/-- A live program whose caches hold entries from an earlier link. -/
def stale_program : GL3ProgramObjectProvider :=
  ⟨false, 3, [], [⟨['o', 'l', 'd'], 1, 35666, 4⟩], [⟨['o', 'l', 'd'], 1, 35676, 5⟩]⟩

/-- The two block-binding setters, which call the driver without activating
the context first. -/
def Op.is_block_binding : Op → Bool
  | .set_uniform_buffer_index _ _ => true
  | .set_storage_buffer_index _ _ => true
  | _ => false

/-- The events a call added to the trace of the world it started from. -/
def Outcome.added {α : Type} (o : Outcome α) (w : World) : List Event :=
  o.world.log.drop w.log.length

/-- The world with the given outcome of context activation. -/
def World.with_context (w : World) (b : Bool) : World :=
  { w with context_ok := b }

/-! ## What the driver reports, written from the specification -/

/-- The buffer sizes `get_info_log` can ask with: 16 KiB, doubled up to
1 MiB. -/
def info_log_buffer_sizes : List Int :=
  [16 * 1024, 32 * 1024, 64 * 1024, 128 * 1024, 256 * 1024, 512 * 1024, 1024 * 1024]

/-- The buffer sizes asked with for a text of `L` characters: the sizes in
turn, up to and including the first in which the text fits strictly (a buffer
of size `n` takes `n - 1` characters, and the answer must be shorter than
that). -/
def info_log_requests (L : Nat) : List Int → List Int
  | [] => []
  | n :: rest => if (L : Int) < n - 1 then [n] else n :: info_log_requests L rest

/-- What is returned after asking with the given buffer sizes in turn: the
text, from the first buffer in which it fits strictly, and `result` when it
fits in none. -/
def info_log_result (text : List Char) (result : List Char) : List Int → List Char
  | [] => result
  | n :: rest =>
    if (text.length : Int) < n - 1 then text else info_log_result text result rest

/-- A diagnostic text of `L` characters. -/
def long_text (L : Nat) : List Char := List.replicate L 'x'



/-- Active uniform `i` of `handle` as the driver reports it into a name buffer
of `name_size` characters: name, array size, type tag, and the location the
driver resolves for that name. -/
def uniform_entry (gl : GLState) (handle : Nat) (name_size : Int) (i : Nat) : ProgramUniform :=
  { name := (gl.active_uniform handle i).name.take (name_size - 1).toNat
    size := (gl.active_uniform handle i).size
    type := (gl.active_uniform handle i).type
    location :=
      gl.uniform_location handle ((gl.active_uniform handle i).name.take (name_size - 1).toNat) }

/-- The active uniforms the driver reports for `handle`: indices `0 .. count-1`
in index order, names read into a buffer of the reported maximum length. -/
def reported_uniforms (gl : GLState) (handle : Nat) : List ProgramUniform :=
  (List.range (gl.program_iv handle ProgramParam.GL_ACTIVE_UNIFORMS).toNat).map
    (uniform_entry gl handle (gl.program_iv handle ProgramParam.GL_ACTIVE_UNIFORM_MAX_LENGTH))

/-- The trace of one enumeration of the active uniforms. -/
def uniform_fetch_events (gl : GLState) (handle : Nat) : List Event :=
  [Event.set_active,
    Event.gl (GLCall.glGetProgramiv handle ProgramParam.GL_ACTIVE_UNIFORMS),
    Event.gl (GLCall.glGetProgramiv handle ProgramParam.GL_ACTIVE_UNIFORM_MAX_LENGTH)] ++
  (List.range (gl.program_iv handle ProgramParam.GL_ACTIVE_UNIFORMS).toNat).flatMap
    (fun i =>
      [Event.gl (GLCall.glGetActiveUniform handle i
          (gl.program_iv handle ProgramParam.GL_ACTIVE_UNIFORM_MAX_LENGTH)),
        Event.gl (GLCall.glGetUniformLocation handle
          (uniform_entry gl handle
            (gl.program_iv handle ProgramParam.GL_ACTIVE_UNIFORM_MAX_LENGTH) i).name)])

/-- Active attribute `i` of `handle` as the driver reports it into a name
buffer of `name_size` characters. -/
def attribute_entry (gl : GLState) (handle : Nat) (name_size : Int) (i : Nat) :
    ProgramAttribute :=
  { name := (gl.active_attrib handle i).name.take (name_size - 1).toNat
    size := (gl.active_attrib handle i).size
    type := (gl.active_attrib handle i).type
    location :=
      gl.attrib_location handle ((gl.active_attrib handle i).name.take (name_size - 1).toNat) }

/-- The active attributes the driver reports for `handle`, in index order. -/
def reported_attributes (gl : GLState) (handle : Nat) : List ProgramAttribute :=
  (List.range (gl.program_iv handle ProgramParam.GL_ACTIVE_ATTRIBUTES).toNat).map
    (attribute_entry gl handle
      (gl.program_iv handle ProgramParam.GL_ACTIVE_ATTRIBUTE_MAX_LENGTH))

/-- The trace of one enumeration of the active attributes. -/
def attribute_fetch_events (gl : GLState) (handle : Nat) : List Event :=
  [Event.set_active,
    Event.gl (GLCall.glGetProgramiv handle ProgramParam.GL_ACTIVE_ATTRIBUTES),
    Event.gl (GLCall.glGetProgramiv handle ProgramParam.GL_ACTIVE_ATTRIBUTE_MAX_LENGTH)] ++
  (List.range (gl.program_iv handle ProgramParam.GL_ACTIVE_ATTRIBUTES).toNat).flatMap
    (fun i =>
      [Event.gl (GLCall.glGetActiveAttrib handle i
          (gl.program_iv handle ProgramParam.GL_ACTIVE_ATTRIBUTE_MAX_LENGTH)),
        Event.gl (GLCall.glGetAttribLocation handle
          (attribute_entry gl handle
            (gl.program_iv handle ProgramParam.GL_ACTIVE_ATTRIBUTE_MAX_LENGTH) i).name)])

/-! ## Disposal -/

/-- C1: on a disposed program every public operation other than disposal, with
any arguments, ends with the disposed-object exception and leaves the provider
(shader list, both caches) and the world (driver state and trace: no
activation attempt, no driver call) exactly as they were. -/
theorem disposed_operation_throws (op : Op) (p : GL3ProgramObjectProvider) (w : World)
    (h : p.disposed = true) :
    op.run p w = ⟨.error Error.object_disposed, p, w⟩ := by
  cases op <;>
    simp [Op.run, Outcome.as, get_handle, get_link_status, get_validate_status, get_shaders,
      get_info_log, get_uniform_count, get_uniforms, get_uniform_location,
      get_attribute_count, get_attributes, get_attribute_location, get_uniform_buffer_size,
      get_uniform_buffer_index, get_storage_buffer_index, attach, detach,
      bind_attribute_location, bind_frag_data_location, link, validate, set_uniform1i,
      set_uniform_buffer_index, set_storage_buffer_index, throw_if_disposed, h, Except.map]

theorem disposed_operation_throws_witness :
    disposed_program.disposed = true ∧
      (Op.set_uniform1i 0 5).run disposed_program sample_world
        = ⟨.error Error.object_disposed, disposed_program, sample_world⟩ :=
  ⟨rfl, disposed_operation_throws (Op.set_uniform1i 0 5) disposed_program sample_world rfl⟩

/-- C8: disposing twice leaves the same provider and the same world (driver
state and trace) as disposing once, whatever the handle and whether or not the
context can be activated; the program is disposed afterwards; and the two
calls together add to the trace nothing, or one activation attempt, or one
activation attempt followed by one `glDeleteProgram` of the handle. -/
theorem dispose_twice_eq_dispose_once (p : GL3ProgramObjectProvider) (w : World) :
    dispose (dispose p w).1 (dispose p w).2 = dispose p w ∧
      (dispose p w).1.disposed = true ∧
      ((dispose (dispose p w).1 (dispose p w).2).2.log = w.log ∨
        (dispose (dispose p w).1 (dispose p w).2).2.log = w.log ++ [Event.set_active] ∨
        (dispose (dispose p w).1 (dispose p w).2).2.log
          = w.log ++ [Event.set_active, Event.gl (GLCall.glDeleteProgram p.handle)]) := by
  by_cases hd : p.disposed = true
  · simp [dispose, hd]
  · by_cases hh : p.handle = 0
    · simp [dispose, hd, on_dispose, hh]
    · by_cases hc : w.context_ok = true
      · simp [dispose, hd, on_dispose, hh, OpenGL.set_active, hc, glDeleteProgram,
          World.command]
      · simp [dispose, hd, on_dispose, hh, OpenGL.set_active, hc]

/-! ## The `-1` sentinel -/

/-- C9: on a live program `set_uniform_buffer_index(-1, b)`,
`set_storage_buffer_index(-1, u)` and `set_uniform1i(-1, v)` return normally
and leave the provider and the world (driver state and trace) untouched: no
activation attempt, no query of the current program, no driver call. -/
theorem sentinel_setters_do_nothing (p : GL3ProgramObjectProvider) (w : World) (b u v : Int)
    (h : p.disposed = false) :
    set_uniform_buffer_index (-1) b p w = ⟨.ok (), p, w⟩ ∧
      set_storage_buffer_index (-1) u p w = ⟨.ok (), p, w⟩ ∧
      set_uniform1i (-1) v p w = ⟨.ok (), p, w⟩ := by
  simp [set_uniform_buffer_index, set_storage_buffer_index, set_uniform1i, throw_if_disposed, h]

theorem sentinel_setters_do_nothing_witness :
    sample_program.disposed = false ∧
      (set_uniform_buffer_index (-1) 2 sample_program sample_world
          = ⟨.ok (), sample_program, sample_world⟩ ∧
        set_storage_buffer_index (-1) 4 sample_program sample_world
          = ⟨.ok (), sample_program, sample_world⟩ ∧
        set_uniform1i (-1) 9 sample_program sample_world
          = ⟨.ok (), sample_program, sample_world⟩) :=
  ⟨rfl, sentinel_setters_do_nothing sample_program sample_world 2 4 9 rfl⟩

/-! ## The scoped bind guard -/

/-- C2: on a live program with handle `h`, with `prev` the current program of
the driver and a location other than `-1`, `set_uniform1i(location, v)`
returns normally; the write reaches the driver while `h` is current (the store
gains `(h, location, v)`); the current program afterwards is `prev` again;
and the trace gains the activation attempt, the query of the current program
and the write, with a `glUseProgram h` before the write and a
`glUseProgram prev` after it exactly when `prev ≠ h`. -/
theorem set_uniform1i_restores_binding (p : GL3ProgramObjectProvider) (w : World)
    (location v : Int) (hlive : p.disposed = false) (hloc : location ≠ -1) :
    (set_uniform1i location v p w).result = .ok () ∧
      (set_uniform1i location v p w).self = p ∧
      (set_uniform1i location v p w).world.gl.uniform1i_store
        = w.gl.uniform1i_store ++ [(p.handle, location, v)] ∧
      (set_uniform1i location v p w).world.gl.current_program = w.gl.current_program ∧
      (set_uniform1i location v p w).world.log
        = w.log ++
          (if w.gl.current_program = p.handle then
            [Event.set_active, Event.gl GLCall.glGetIntegerv_CURRENT_PROGRAM,
              Event.gl (GLCall.glUniform1i location v)]
          else
            [Event.set_active, Event.gl GLCall.glGetIntegerv_CURRENT_PROGRAM,
              Event.gl (GLCall.glUseProgram p.handle),
              Event.gl (GLCall.glUniform1i location v),
              Event.gl (GLCall.glUseProgram w.gl.current_program)]) := by
  by_cases hcur : p.handle = w.gl.current_program
  · simp [set_uniform1i, throw_if_disposed, hlive, hloc, ProgramObjectStateTracker.construct,
      ProgramObjectStateTracker.destruct, OpenGL.set_active, glGetIntegerv_CURRENT_PROGRAM,
      World.record, glUseProgram, glUniform1i, hcur]
  · have hcur2 : ¬ w.gl.current_program = p.handle := fun e => hcur e.symm
    simp [set_uniform1i, throw_if_disposed, hlive, hloc, ProgramObjectStateTracker.construct,
      ProgramObjectStateTracker.destruct, OpenGL.set_active, glGetIntegerv_CURRENT_PROGRAM,
      World.record, glUseProgram, glUniform1i, hcur, hcur2]

theorem set_uniform1i_restores_binding_witness :
    sample_program.disposed = false ∧ (0 : Int) ≠ -1 ∧
      (set_uniform1i 0 5 sample_program sample_world).world.gl.uniform1i_store = [(3, 0, 5)] ∧
      (set_uniform1i 0 5 sample_program sample_world).world.gl.current_program = 7 :=
  ⟨rfl, by decide,
    (set_uniform1i_restores_binding sample_program sample_world 0 5 rfl (by decide)).2.2.1,
    (set_uniform1i_restores_binding sample_program sample_world 0 5 rfl (by decide)).2.2.2.1⟩

/-! ## Attach and detach -/

theorem detach_loop_of_not_mem (obj : ShaderObject) (l : List ShaderObject) (h : obj ∉ l) :
    detach_loop obj l = l := by
  induction l with
  | nil => rfl
  | cons s rest ih =>
    have hs : s ≠ obj := fun e => h (by simp [e])
    have hr : obj ∉ rest := fun m => h (List.mem_cons_of_mem _ m)
    simp [detach_loop, hs, ih hr]

theorem detach_loop_append_self (obj : ShaderObject) (l : List ShaderObject) (h : obj ∉ l) :
    detach_loop obj (l ++ [obj]) = l := by
  induction l with
  | nil => simp [detach_loop]
  | cons s rest ih =>
    have hs : s ≠ obj := fun e => h (by simp [e])
    have hr : obj ∉ rest := fun m => h (List.mem_cons_of_mem _ m)
    simp [detach_loop, hs, ih hr]

/-- C5, as stated, fails: a program that already holds `shader_A` still holds
it after `attach(shader_A); detach(shader_A)` (the first of the two equal
entries is erased), and a second `detach(shader_A)` then changes the
sequence. -/
theorem attach_detach_counterexample :
    program_with_A.disposed = false ∧
      (get_shaders (attach_then_detach shader_A program_with_A sample_world).self
          (attach_then_detach shader_A program_with_A sample_world).world).result
        = .ok [shader_A] ∧
      (detach shader_A (attach_then_detach shader_A program_with_A sample_world).self
          (attach_then_detach shader_A program_with_A sample_world).world).self.shaders
        ≠ (attach_then_detach shader_A program_with_A sample_world).self.shaders := by
  refine ⟨rfl, rfl, ?_⟩
  decide

/-- C5, amended: on a live program whose attached sequence does not already
contain `A`, after `attach(A); detach(A)` the sequence returned by
`get_shaders()` is the one held before (so it does not contain `A`), and a
second `detach(A)` returns normally and leaves the sequence unchanged. -/
theorem attach_detach_removes_fresh_stage (p : GL3ProgramObjectProvider) (w : World)
    (A : ShaderObject) (hlive : p.disposed = false) (hfresh : A ∉ p.shaders) :
    (attach_then_detach A p w).result = .ok () ∧
      (get_shaders (attach_then_detach A p w).self (attach_then_detach A p w).world).result
        = .ok p.shaders ∧
      A ∉ (attach_then_detach A p w).self.shaders ∧
      (detach A (attach_then_detach A p w).self (attach_then_detach A p w).world).result
        = .ok () ∧
      (detach A (attach_then_detach A p w).self (attach_then_detach A p w).world).self.shaders
        = (attach_then_detach A p w).self.shaders := by
  simp [attach_then_detach, attach, detach, get_shaders, throw_if_disposed, hlive,
    detach_loop_append_self A p.shaders hfresh, detach_loop_of_not_mem A p.shaders hfresh,
    hfresh]

theorem attach_detach_removes_fresh_stage_witness :
    program_with_A.disposed = false ∧ shader_B ∉ program_with_A.shaders ∧
      (get_shaders (attach_then_detach shader_B program_with_A sample_world).self
          (attach_then_detach shader_B program_with_A sample_world).world).result
        = .ok [shader_A] :=
  ⟨rfl, by decide,
    (attach_detach_removes_fresh_stage program_with_A sample_world shader_B rfl
      (by decide)).2.1⟩

/-! ## The reflection caches -/

theorem fetch_uniforms_fold (handle : Nat) (name_size : Int) (is : List Nat) :
    ∀ (acc : List ProgramUniform) (w : World),
      is.foldl
        (fun acc i =>
          let (info, w) := glGetActiveUniform handle i name_size acc.2
          let uniform_name := info.name
          let (loc, w) := glGetUniformLocation handle info.name w
          (acc.1 ++ [ProgramUniform.mk uniform_name info.size info.type loc], w))
        (acc, w)
      = (acc ++ is.map (uniform_entry w.gl handle name_size),
          { w with log := w.log ++ is.flatMap (fun i =>
              [Event.gl (GLCall.glGetActiveUniform handle i name_size),
                Event.gl (GLCall.glGetUniformLocation handle
                  (uniform_entry w.gl handle name_size i).name)]) }) := by
  induction is with
  | nil => intro acc w; simp
  | cons i rest ih =>
    intro acc w
    simp only [List.foldl_cons]
    rw [ih]
    simp [glGetActiveUniform, glGetUniformLocation, World.record, uniform_entry]

theorem fetch_attributes_fold (handle : Nat) (name_size : Int) (is : List Nat) :
    ∀ (acc : List ProgramAttribute) (w : World),
      is.foldl
        (fun acc i =>
          let (info, w) := glGetActiveAttrib handle i name_size acc.2
          let attrib_name := info.name
          let (loc, w) := glGetAttribLocation handle info.name w
          (acc.1 ++ [ProgramAttribute.mk attrib_name info.size info.type loc], w))
        (acc, w)
      = (acc ++ is.map (attribute_entry w.gl handle name_size),
          { w with log := w.log ++ is.flatMap (fun i =>
              [Event.gl (GLCall.glGetActiveAttrib handle i name_size),
                Event.gl (GLCall.glGetAttribLocation handle
                  (attribute_entry w.gl handle name_size i).name)]) }) := by
  induction is with
  | nil => intro acc w; simp
  | cons i rest ih =>
    intro acc w
    simp only [List.foldl_cons]
    rw [ih]
    simp [glGetActiveAttrib, glGetAttribLocation, World.record, attribute_entry]

theorem new_name_buffer_of_valid (name_size : Int) (h0 : 0 ≤ name_size)
    (h1 : name_size < 2147483647) : new_name_buffer name_size = none := by
  have a : ¬ (2147483647 ≤ name_size) := by omega
  have b : ¬ (name_size + 1 < 0) := by omega
  have c : ¬ (name_size < 0) := by omega
  simp only [new_name_buffer, if_neg a, if_neg b, if_neg c]

theorem valid_of_new_name_buffer (name_size : Int) (h : new_name_buffer name_size = none) :
    0 ≤ name_size ∧ name_size < 2147483647 := by
  unfold new_name_buffer at h
  split_ifs at h
  omega

/-- A read of the uniforms with an empty cache and a usable name buffer
enumerates what the driver reports and stores it. -/
theorem get_uniforms_of_empty (p : GL3ProgramObjectProvider) (w : World)
    (hlive : p.disposed = false) (hempty : p.cached_uniforms = [])
    (hbuf : new_name_buffer
      (w.gl.program_iv p.handle ProgramParam.GL_ACTIVE_UNIFORM_MAX_LENGTH) = none) :
    get_uniforms p w
      = ⟨.ok (reported_uniforms w.gl p.handle),
          { p with cached_uniforms := reported_uniforms w.gl p.handle },
          { w with log := w.log ++ uniform_fetch_events w.gl p.handle }⟩ := by
  simp [get_uniforms, throw_if_disposed, hlive, hempty, fetch_uniforms, fetch_uniforms_loop,
    fetch_uniforms_fold, OpenGL.set_active, glGetProgramiv, World.record, reported_uniforms,
    uniform_fetch_events, hbuf]

/-- A read of the uniforms with an empty cache fails when the name buffer
cannot be made, after the count and name-length queries, and stores
nothing. -/
theorem get_uniforms_of_empty_fail (p : GL3ProgramObjectProvider) (w : World)
    (hlive : p.disposed = false) (hempty : p.cached_uniforms = []) (e : Error)
    (hbuf : new_name_buffer
      (w.gl.program_iv p.handle ProgramParam.GL_ACTIVE_UNIFORM_MAX_LENGTH) = some e) :
    get_uniforms p w
      = ⟨.error e, p, { w with log := w.log ++ uniform_count_events p.handle }⟩ := by
  simp [get_uniforms, throw_if_disposed, hlive, hempty, fetch_uniforms, OpenGL.set_active,
    glGetProgramiv, World.record, uniform_count_events, hbuf]

/-- A read of the uniforms with a filled cache returns the cache and touches
nothing. -/
theorem get_uniforms_of_cached (p : GL3ProgramObjectProvider) (w : World)
    (hlive : p.disposed = false) (hfull : p.cached_uniforms ≠ []) :
    get_uniforms p w = ⟨.ok p.cached_uniforms, p, w⟩ := by
  simp [get_uniforms, throw_if_disposed, hlive, hfull]

theorem get_attributes_of_empty (p : GL3ProgramObjectProvider) (w : World)
    (hlive : p.disposed = false) (hempty : p.cached_attribs = [])
    (hbuf : new_name_buffer
      (w.gl.program_iv p.handle ProgramParam.GL_ACTIVE_ATTRIBUTE_MAX_LENGTH) = none) :
    get_attributes p w
      = ⟨.ok (reported_attributes w.gl p.handle),
          { p with cached_attribs := reported_attributes w.gl p.handle },
          { w with log := w.log ++ attribute_fetch_events w.gl p.handle }⟩ := by
  simp [get_attributes, throw_if_disposed, hlive, hempty, fetch_attributes,
    fetch_attributes_loop, fetch_attributes_fold, OpenGL.set_active, glGetProgramiv,
    World.record, reported_attributes, attribute_fetch_events, hbuf]

theorem get_attributes_of_empty_fail (p : GL3ProgramObjectProvider) (w : World)
    (hlive : p.disposed = false) (hempty : p.cached_attribs = []) (e : Error)
    (hbuf : new_name_buffer
      (w.gl.program_iv p.handle ProgramParam.GL_ACTIVE_ATTRIBUTE_MAX_LENGTH) = some e) :
    get_attributes p w
      = ⟨.error e, p, { w with log := w.log ++ attribute_count_events p.handle }⟩ := by
  simp [get_attributes, throw_if_disposed, hlive, hempty, fetch_attributes,
    OpenGL.set_active, glGetProgramiv, World.record, attribute_count_events, hbuf]

theorem get_attributes_of_cached (p : GL3ProgramObjectProvider) (w : World)
    (hlive : p.disposed = false) (hfull : p.cached_attribs ≠ []) :
    get_attributes p w = ⟨.ok p.cached_attribs, p, w⟩ := by
  simp [get_attributes, throw_if_disposed, hlive, hfull]

/-- With a reported maximum name length of `-2` the read throws where `new[]`
does, after the count and name-length queries. -/
theorem get_uniforms_negative_length :
    (get_uniforms sample_program negative_length_world).result = .error Error.bad_alloc ∧
      (get_uniforms sample_program negative_length_world).world.log
        = uniform_count_events 3 := by
  constructor <;> rfl

/-- C3, as stated, fails: when the driver reports no active uniform the cache
stays empty, and the second `get_uniforms()` asks the driver again. -/
theorem second_read_counterexample :
    sample_program.disposed = false ∧
      (get_uniforms sample_program bare_world).world.log
        = [Event.set_active,
            Event.gl (GLCall.glGetProgramiv 3 ProgramParam.GL_ACTIVE_UNIFORMS),
            Event.gl (GLCall.glGetProgramiv 3 ProgramParam.GL_ACTIVE_UNIFORM_MAX_LENGTH)] ∧
      (second_get_uniforms sample_program bare_world).world.log
        = [Event.set_active,
            Event.gl (GLCall.glGetProgramiv 3 ProgramParam.GL_ACTIVE_UNIFORMS),
            Event.gl (GLCall.glGetProgramiv 3 ProgramParam.GL_ACTIVE_UNIFORM_MAX_LENGTH),
            Event.set_active,
            Event.gl (GLCall.glGetProgramiv 3 ProgramParam.GL_ACTIVE_UNIFORMS),
            Event.gl (GLCall.glGetProgramiv 3 ProgramParam.GL_ACTIVE_UNIFORM_MAX_LENGTH)] := by
  refine ⟨rfl, ?_, ?_⟩ <;> decide

theorem reported_uniforms_ne_nil (gl : GLState) (handle : Nat)
    (h : 0 < gl.program_iv handle ProgramParam.GL_ACTIVE_UNIFORMS) :
    reported_uniforms gl handle ≠ [] := by
  intro e
  have hl := congrArg List.length e
  simp [reported_uniforms] at hl
  omega

theorem reported_attributes_ne_nil (gl : GLState) (handle : Nat)
    (h : 0 < gl.program_iv handle ProgramParam.GL_ACTIVE_ATTRIBUTES) :
    reported_attributes gl handle ≠ [] := by
  intro e
  have hl := congrArg List.length e
  simp [reported_attributes] at hl
  omega

theorem reported_uniforms_nil_of_count (gl : GLState) (handle : Nat)
    (h : gl.program_iv handle ProgramParam.GL_ACTIVE_UNIFORMS ≤ 0) :
    reported_uniforms gl handle = [] := by
  have hz : (gl.program_iv handle ProgramParam.GL_ACTIVE_UNIFORMS).toNat = 0 := by omega
  simp [reported_uniforms, hz]

theorem reported_attributes_nil_of_count (gl : GLState) (handle : Nat)
    (h : gl.program_iv handle ProgramParam.GL_ACTIVE_ATTRIBUTES ≤ 0) :
    reported_attributes gl handle = [] := by
  have hz : (gl.program_iv handle ProgramParam.GL_ACTIVE_ATTRIBUTES).toNat = 0 := by omega
  simp [reported_attributes, hz]

/-- An enumeration that finds nothing consists of the opening queries. -/
theorem uniform_fetch_events_of_nil (gl : GLState) (handle : Nat)
    (h : reported_uniforms gl handle = []) :
    uniform_fetch_events gl handle = uniform_count_events handle := by
  have hl := congrArg List.length h
  simp [reported_uniforms] at hl
  have hz : (gl.program_iv handle ProgramParam.GL_ACTIVE_UNIFORMS).toNat = 0 := by omega
  simp [uniform_fetch_events, uniform_count_events, hz]

theorem attribute_fetch_events_of_nil (gl : GLState) (handle : Nat)
    (h : reported_attributes gl handle = []) :
    attribute_fetch_events gl handle = attribute_count_events handle := by
  have hl := congrArg List.length h
  simp [reported_attributes] at hl
  have hz : (gl.program_iv handle ProgramParam.GL_ACTIVE_ATTRIBUTES).toNat = 0 := by omega
  simp [attribute_fetch_events, attribute_count_events, hz]

/-- C3, amended: on a live program, a second `get_uniforms()` (respectively
`get_attributes()`) with nothing in between ends as the first did, with the
identical list, and leaves the provider as the first call left it. Whenever
the first call returned a non-empty list, the second call leaves the world
untouched: no activation attempt and no driver query. The first call returns
a non-empty list as soon as the driver reports at least one active uniform
(attribute) and a maximum name length that a `GLint` buffer size can hold.
When the first call returned the empty list, the second call adds to the
trace the activation attempt, the count query and the name-length query, and
nothing else; the first call returns the empty list when the cache was empty
and the driver reports no active uniform (attribute). -/
theorem second_read_is_cached (p : GL3ProgramObjectProvider) (w : World)
    (hlive : p.disposed = false) :
    ((second_get_uniforms p w).result = (get_uniforms p w).result ∧
      (second_get_uniforms p w).self = (get_uniforms p w).self ∧
      (∀ l, (get_uniforms p w).result = .ok l → l ≠ [] →
        (second_get_uniforms p w).world = (get_uniforms p w).world) ∧
      (0 < w.gl.program_iv p.handle ProgramParam.GL_ACTIVE_UNIFORMS →
        0 ≤ w.gl.program_iv p.handle ProgramParam.GL_ACTIVE_UNIFORM_MAX_LENGTH →
        w.gl.program_iv p.handle ProgramParam.GL_ACTIVE_UNIFORM_MAX_LENGTH < 2147483647 →
        ∃ l, (get_uniforms p w).result = .ok l ∧ l ≠ []) ∧
      ((get_uniforms p w).result = .ok [] →
        (second_get_uniforms p w).world
          = { (get_uniforms p w).world with
              log := (get_uniforms p w).world.log ++ uniform_count_events p.handle }) ∧
      (p.cached_uniforms = [] →
        w.gl.program_iv p.handle ProgramParam.GL_ACTIVE_UNIFORMS ≤ 0 →
        0 ≤ w.gl.program_iv p.handle ProgramParam.GL_ACTIVE_UNIFORM_MAX_LENGTH →
        w.gl.program_iv p.handle ProgramParam.GL_ACTIVE_UNIFORM_MAX_LENGTH < 2147483647 →
        (get_uniforms p w).result = .ok [])) ∧
    ((second_get_attributes p w).result = (get_attributes p w).result ∧
      (second_get_attributes p w).self = (get_attributes p w).self ∧
      (∀ l, (get_attributes p w).result = .ok l → l ≠ [] →
        (second_get_attributes p w).world = (get_attributes p w).world) ∧
      (0 < w.gl.program_iv p.handle ProgramParam.GL_ACTIVE_ATTRIBUTES →
        0 ≤ w.gl.program_iv p.handle ProgramParam.GL_ACTIVE_ATTRIBUTE_MAX_LENGTH →
        w.gl.program_iv p.handle ProgramParam.GL_ACTIVE_ATTRIBUTE_MAX_LENGTH < 2147483647 →
        ∃ l, (get_attributes p w).result = .ok l ∧ l ≠ []) ∧
      ((get_attributes p w).result = .ok [] →
        (second_get_attributes p w).world
          = { (get_attributes p w).world with
              log := (get_attributes p w).world.log ++ attribute_count_events p.handle }) ∧
      (p.cached_attribs = [] →
        w.gl.program_iv p.handle ProgramParam.GL_ACTIVE_ATTRIBUTES ≤ 0 →
        0 ≤ w.gl.program_iv p.handle ProgramParam.GL_ACTIVE_ATTRIBUTE_MAX_LENGTH →
        w.gl.program_iv p.handle ProgramParam.GL_ACTIVE_ATTRIBUTE_MAX_LENGTH < 2147483647 →
        (get_attributes p w).result = .ok [])) := by
  constructor
  · by_cases hc : p.cached_uniforms = []
    · cases hbuf : new_name_buffer
          (w.gl.program_iv p.handle ProgramParam.GL_ACTIVE_UNIFORM_MAX_LENGTH) with
      | some e =>
        have e1 := get_uniforms_of_empty_fail p w hlive hc e hbuf
        have e2 := get_uniforms_of_empty_fail p
          { w with log := w.log ++ uniform_count_events p.handle } hlive hc e hbuf
        simp only [second_get_uniforms, e1, e2]
        refine ⟨trivial, trivial, ?_, ?_, ?_, ?_⟩
        · intro l hl; cases hl
        · intro _ h0 h1
          rw [new_name_buffer_of_valid _ h0 h1] at hbuf
          cases hbuf
        · intro hl; cases hl
        · intro _ _ h0 h1
          rw [new_name_buffer_of_valid _ h0 h1] at hbuf
          cases hbuf
      | none =>
        have e1 := get_uniforms_of_empty p w hlive hc hbuf
        by_cases hr : reported_uniforms w.gl p.handle = []
        · have e2 := get_uniforms_of_empty
            { p with cached_uniforms := reported_uniforms w.gl p.handle }
            { w with log := w.log ++ uniform_fetch_events w.gl p.handle } hlive hr hbuf
          simp only [second_get_uniforms, e1, e2]
          refine ⟨trivial, trivial, ?_, ?_, ?_, ?_⟩
          · intro l hl hne
            exact absurd (hr.symm.trans (Except.ok.inj hl)).symm hne
          · intro hpos _ _
            exact absurd hr (reported_uniforms_ne_nil _ _ hpos)
          · intro _
            rw [uniform_fetch_events_of_nil _ _ hr]
          · intro _ _ _ _
            rw [hr]
        · have e2 := get_uniforms_of_cached
            { p with cached_uniforms := reported_uniforms w.gl p.handle }
            { w with log := w.log ++ uniform_fetch_events w.gl p.handle } hlive hr
          simp only [second_get_uniforms, e1, e2]
          refine ⟨trivial, trivial, ?_, ?_, ?_, ?_⟩
          · intro _ _ _; trivial
          · intro _ _ _
            exact ⟨_, rfl, hr⟩
          · intro hl
            exact absurd (Except.ok.inj hl) hr
          · intro _ hle _ _
            exact absurd (reported_uniforms_nil_of_count _ _ hle) hr
    · have e1 := get_uniforms_of_cached p w hlive hc
      simp only [second_get_uniforms, e1]
      refine ⟨trivial, trivial, ?_, ?_, ?_, ?_⟩
      · intro _ _ _; trivial
      · intro _ _ _
        exact ⟨_, rfl, hc⟩
      · intro hl
        exact absurd (Except.ok.inj hl) hc
      · intro h; exact absurd h hc
  · by_cases hc : p.cached_attribs = []
    · cases hbuf : new_name_buffer
          (w.gl.program_iv p.handle ProgramParam.GL_ACTIVE_ATTRIBUTE_MAX_LENGTH) with
      | some e =>
        have e1 := get_attributes_of_empty_fail p w hlive hc e hbuf
        have e2 := get_attributes_of_empty_fail p
          { w with log := w.log ++ attribute_count_events p.handle } hlive hc e hbuf
        simp only [second_get_attributes, e1, e2]
        refine ⟨trivial, trivial, ?_, ?_, ?_, ?_⟩
        · intro l hl; cases hl
        · intro _ h0 h1
          rw [new_name_buffer_of_valid _ h0 h1] at hbuf
          cases hbuf
        · intro hl; cases hl
        · intro _ _ h0 h1
          rw [new_name_buffer_of_valid _ h0 h1] at hbuf
          cases hbuf
      | none =>
        have e1 := get_attributes_of_empty p w hlive hc hbuf
        by_cases hr : reported_attributes w.gl p.handle = []
        · have e2 := get_attributes_of_empty
            { p with cached_attribs := reported_attributes w.gl p.handle }
            { w with log := w.log ++ attribute_fetch_events w.gl p.handle } hlive hr hbuf
          simp only [second_get_attributes, e1, e2]
          refine ⟨trivial, trivial, ?_, ?_, ?_, ?_⟩
          · intro l hl hne
            exact absurd (hr.symm.trans (Except.ok.inj hl)).symm hne
          · intro hpos _ _
            exact absurd hr (reported_attributes_ne_nil _ _ hpos)
          · intro _
            rw [attribute_fetch_events_of_nil _ _ hr]
          · intro _ _ _ _
            rw [hr]
        · have e2 := get_attributes_of_cached
            { p with cached_attribs := reported_attributes w.gl p.handle }
            { w with log := w.log ++ attribute_fetch_events w.gl p.handle } hlive hr
          simp only [second_get_attributes, e1, e2]
          refine ⟨trivial, trivial, ?_, ?_, ?_, ?_⟩
          · intro _ _ _; trivial
          · intro _ _ _
            exact ⟨_, rfl, hr⟩
          · intro hl
            exact absurd (Except.ok.inj hl) hr
          · intro _ hle _ _
            exact absurd (reported_attributes_nil_of_count _ _ hle) hr
    · have e1 := get_attributes_of_cached p w hlive hc
      simp only [second_get_attributes, e1]
      refine ⟨trivial, trivial, ?_, ?_, ?_, ?_⟩
      · intro _ _ _; trivial
      · intro _ _ _
        exact ⟨_, rfl, hc⟩
      · intro hl
        exact absurd (Except.ok.inj hl) hc
      · intro h; exact absurd h hc

theorem second_read_is_cached_witness :
    sample_program.disposed = false ∧
      (second_get_uniforms sample_program sample_world).result
        = (get_uniforms sample_program sample_world).result ∧
      (second_get_uniforms sample_program sample_world).world
        = (get_uniforms sample_program sample_world).world ∧
      (second_get_uniforms sample_program bare_world).world
        = { (get_uniforms sample_program bare_world).world with
            log := (get_uniforms sample_program bare_world).world.log
              ++ uniform_count_events sample_program.handle } ∧
      (second_get_attributes sample_program sample_world).world
        = (get_attributes sample_program sample_world).world :=
  ⟨rfl, (second_read_is_cached sample_program sample_world rfl).1.1,
    (second_read_is_cached sample_program sample_world rfl).1.2.2.1
      [⟨['m', 'v', 'p'], 1, 35676, 0⟩, ⟨['t', 'e', 'x'], 1, 35678, 1⟩] rfl (by decide),
    (second_read_is_cached sample_program bare_world rfl).1.2.2.2.2.1 rfl,
    (second_read_is_cached sample_program sample_world rfl).2.2.2.1
      [⟨['p', 'o', 's'], 1, 35666, 0⟩] rfl (by decide)⟩

theorem reported_uniforms_at (gl : GLState) (handle : Nat) (i : Nat)
    (h : i < (gl.program_iv handle ProgramParam.GL_ACTIVE_UNIFORMS).toNat) :
    (reported_uniforms gl handle)[i]?
      = some (uniform_entry gl handle
          (gl.program_iv handle ProgramParam.GL_ACTIVE_UNIFORM_MAX_LENGTH) i) := by
  simp [reported_uniforms, List.getElem?_map, List.getElem?_range h]

theorem reported_attributes_at (gl : GLState) (handle : Nat) (i : Nat)
    (h : i < (gl.program_iv handle ProgramParam.GL_ACTIVE_ATTRIBUTES).toNat) :
    (reported_attributes gl handle)[i]?
      = some (attribute_entry gl handle
          (gl.program_iv handle ProgramParam.GL_ACTIVE_ATTRIBUTE_MAX_LENGTH) i) := by
  simp [reported_attributes, List.getElem?_map, List.getElem?_range h]

/-- When the name buffer is longer than the name, as with a driver whose
reported maximum length counts the terminator, the entry carries the whole
name and the location resolved for it. -/
theorem uniform_entry_of_fits (gl : GLState) (handle : Nat) (name_size : Int) (i : Nat)
    (h : ((gl.active_uniform handle i).name.length : Int) < name_size) :
    uniform_entry gl handle name_size i
      = ⟨(gl.active_uniform handle i).name, (gl.active_uniform handle i).size,
          (gl.active_uniform handle i).type,
          gl.uniform_location handle (gl.active_uniform handle i).name⟩ := by
  have hle : (gl.active_uniform handle i).name.length ≤ (name_size - 1).toNat := by omega
  simp only [uniform_entry, List.take_of_length_le hle]

theorem attribute_entry_of_fits (gl : GLState) (handle : Nat) (name_size : Int) (i : Nat)
    (h : ((gl.active_attrib handle i).name.length : Int) < name_size) :
    attribute_entry gl handle name_size i
      = ⟨(gl.active_attrib handle i).name, (gl.active_attrib handle i).size,
          (gl.active_attrib handle i).type,
          gl.attrib_location handle (gl.active_attrib handle i).name⟩ := by
  have hle : (gl.active_attrib handle i).name.length ≤ (name_size - 1).toNat := by omega
  simp only [attribute_entry, List.take_of_length_le hle]

/-- C4: on a live program, whatever the two caches held, the `get_uniforms()`
(respectively `get_attributes()`) that follows `link()` returns exactly what
the driver reports in the state the link left, whether the link succeeded or
not: `count` entries, the one at position `i` being active uniform
(attribute) `i` with the reported name, array size and type tag and the
location the driver resolves for that name. The read makes one enumeration of
the driver, right after the link call. Nothing of the old caches takes part.
The driver is taken to report a maximum name length that is a usable buffer
size, `0 ≤ length < 2^31 - 1`, as OpenGL does. -/
theorem read_after_link_is_fresh (p : GL3ProgramObjectProvider) (w : World)
    (hlive : p.disposed = false) :
    (link p w).result = .ok () ∧
    (0 ≤ (link p w).world.gl.program_iv p.handle ProgramParam.GL_ACTIVE_UNIFORM_MAX_LENGTH →
      (link p w).world.gl.program_iv p.handle ProgramParam.GL_ACTIVE_UNIFORM_MAX_LENGTH
        < 2147483647 →
      (get_uniforms_after_link p w).result
          = .ok (reported_uniforms (link p w).world.gl p.handle) ∧
        (get_uniforms_after_link p w).world.log
          = w.log ++ [Event.set_active, Event.gl (GLCall.glLinkProgram p.handle)]
              ++ uniform_fetch_events (link p w).world.gl p.handle) ∧
    (0 ≤ (link p w).world.gl.program_iv p.handle ProgramParam.GL_ACTIVE_ATTRIBUTE_MAX_LENGTH →
      (link p w).world.gl.program_iv p.handle ProgramParam.GL_ACTIVE_ATTRIBUTE_MAX_LENGTH
        < 2147483647 →
      (get_attributes_after_link p w).result
          = .ok (reported_attributes (link p w).world.gl p.handle) ∧
        (get_attributes_after_link p w).world.log
          = w.log ++ [Event.set_active, Event.gl (GLCall.glLinkProgram p.handle)]
              ++ attribute_fetch_events (link p w).world.gl p.handle) ∧
    (reported_uniforms (link p w).world.gl p.handle).length
      = ((link p w).world.gl.program_iv p.handle ProgramParam.GL_ACTIVE_UNIFORMS).toNat ∧
    (reported_attributes (link p w).world.gl p.handle).length
      = ((link p w).world.gl.program_iv p.handle ProgramParam.GL_ACTIVE_ATTRIBUTES).toNat ∧
    (∀ i, i < ((link p w).world.gl.program_iv p.handle
          ProgramParam.GL_ACTIVE_UNIFORMS).toNat →
      (reported_uniforms (link p w).world.gl p.handle)[i]?
        = some (uniform_entry (link p w).world.gl p.handle
            ((link p w).world.gl.program_iv p.handle
              ProgramParam.GL_ACTIVE_UNIFORM_MAX_LENGTH) i)) ∧
    (∀ i, i < ((link p w).world.gl.program_iv p.handle
          ProgramParam.GL_ACTIVE_ATTRIBUTES).toNat →
      (reported_attributes (link p w).world.gl p.handle)[i]?
        = some (attribute_entry (link p w).world.gl p.handle
            ((link p w).world.gl.program_iv p.handle
              ProgramParam.GL_ACTIVE_ATTRIBUTE_MAX_LENGTH) i)) := by
  have el : link p w
      = ⟨.ok (), { p with cached_attribs := [], cached_uniforms := [] },
          { w with gl := w.mutate (GLCall.glLinkProgram p.handle) w.gl,
                   log := w.log ++ [Event.set_active, Event.gl (GLCall.glLinkProgram p.handle)] }⟩ := by
    simp [link, throw_if_disposed, hlive, OpenGL.set_active, glLinkProgram, World.command]
  refine ⟨?_, ?_, ?_, ?_, ?_, fun i hi => reported_uniforms_at _ _ i hi,
    fun i hi => reported_attributes_at _ _ i hi⟩
  · rw [el]
  · rw [el]
    intro h0 h1
    have eu := get_uniforms_of_empty { p with cached_attribs := [], cached_uniforms := [] }
      { w with gl := w.mutate (GLCall.glLinkProgram p.handle) w.gl,
               log := w.log ++ [Event.set_active, Event.gl (GLCall.glLinkProgram p.handle)] }
      hlive rfl (new_name_buffer_of_valid _ h0 h1)
    simp only [get_uniforms_after_link, el, eu]
    exact ⟨trivial, trivial⟩
  · rw [el]
    intro h0 h1
    have ea := get_attributes_of_empty { p with cached_attribs := [], cached_uniforms := [] }
      { w with gl := w.mutate (GLCall.glLinkProgram p.handle) w.gl,
               log := w.log ++ [Event.set_active, Event.gl (GLCall.glLinkProgram p.handle)] }
      hlive rfl (new_name_buffer_of_valid _ h0 h1)
    simp only [get_attributes_after_link, el, ea]
    exact ⟨trivial, trivial⟩
  · simp [reported_uniforms]
  · simp [reported_attributes]

theorem read_after_link_is_fresh_witness :
    stale_program.disposed = false ∧
      (get_uniforms_after_link stale_program sample_world).result
        = .ok [⟨['m', 'v', 'p'], 1, 35676, 0⟩, ⟨['t', 'e', 'x'], 1, 35678, 1⟩] ∧
      (get_attributes_after_link stale_program sample_world).result
        = .ok [⟨['p', 'o', 's'], 1, 35666, 0⟩] :=
  ⟨rfl,
    ((read_after_link_is_fresh stale_program sample_world rfl).2.1
      (by decide) (by decide)).1,
    ((read_after_link_is_fresh stale_program sample_world rfl).2.2.1
      (by decide) (by decide)).1⟩

/-! ## The diagnostic log -/

theorem get_info_log_loop_done (handle : Nat) (n : Int) (hpos : 0 < n) (result : List Char)
    (w : World) (hn : ¬ n < 2 * 1024 * 1024) :
    get_info_log_loop handle n hpos result w = (result, w) := by
  rw [get_info_log_loop, if_neg hn]

theorem get_info_log_loop_hit (handle : Nat) (n : Int) (hpos : 0 < n) (result : List Char)
    (w : World) (hn : n < 2 * 1024 * 1024)
    (hL : ((w.gl.info_log handle).length : Int) < n - 1) :
    get_info_log_loop handle n hpos result w
      = (w.gl.info_log handle, w.record (GLCall.glGetProgramInfoLog handle n)) := by
  have hle : (w.gl.info_log handle).length ≤ (n - 1).toNat := by omega
  rw [get_info_log_loop, if_pos hn]
  simp only [glGetProgramInfoLog, List.take_of_length_le hle, if_pos hL, Int.toNat_ofNat,
    List.take_length]

theorem get_info_log_loop_miss (handle : Nat) (n : Int) (hpos : 0 < n) (result : List Char)
    (w : World) (hn : n < 2 * 1024 * 1024)
    (hL : ¬ ((w.gl.info_log handle).length : Int) < n - 1) :
    get_info_log_loop handle n hpos result w
      = get_info_log_loop handle (n * 2) (by omega) result
          (w.record (GLCall.glGetProgramInfoLog handle n)) := by
  have hlen : ((List.take (n - 1).toNat (w.gl.info_log handle)).length : Int) = n - 1 := by
    rw [List.length_take]
    omega
  rw [get_info_log_loop, if_pos hn]
  simp only [glGetProgramInfoLog, hlen, lt_irrefl, if_false]

theorem get_info_log_loop_nil (handle : Nat) (n : Int) (hn : 0 < n)
    (hge : ¬ n < 2 * 1024 * 1024) (result : List Char) (w : World) :
    get_info_log_loop handle n hn result w
      = (info_log_result (w.gl.info_log handle) result [],
          { w with log := (w.log ++
              List.map (fun k => Event.gl (GLCall.glGetProgramInfoLog handle k))
                (info_log_requests (w.gl.info_log handle).length [])) }) := by
  rw [get_info_log_loop_done handle n hn result w hge]
  simp [info_log_result, info_log_requests]

theorem get_info_log_loop_cons (handle : Nat) (n m : Int) (hn : 0 < n) (hm : 0 < m)
    (hmn : m = n * 2) (hlt : n < 2 * 1024 * 1024) (rest : List Int)
    (ih : ∀ (result : List Char) (w : World),
      get_info_log_loop handle m hm result w
        = (info_log_result (w.gl.info_log handle) result rest,
            { w with log := (w.log ++
                List.map (fun k => Event.gl (GLCall.glGetProgramInfoLog handle k))
                  (info_log_requests (w.gl.info_log handle).length rest)) }))
    (result : List Char) (w : World) :
    get_info_log_loop handle n hn result w
      = (info_log_result (w.gl.info_log handle) result (n :: rest),
          { w with log := (w.log ++
              List.map (fun k => Event.gl (GLCall.glGetProgramInfoLog handle k))
                (info_log_requests (w.gl.info_log handle).length (n :: rest))) }) := by
  subst hmn
  by_cases hL : ((w.gl.info_log handle).length : Int) < n - 1
  · rw [get_info_log_loop_hit handle n hn result w hlt hL]
    simp [info_log_result, info_log_requests, hL, World.record]
  · rw [get_info_log_loop_miss handle n hn result w hlt hL, ih]
    simp [info_log_result, info_log_requests, hL, World.record]

/-- With the seven buffer sizes, the text comes back exactly when it is
shorter than `1024*1024 - 1` characters; otherwise the empty string does. -/
theorem info_log_result_sizes (text : List Char) :
    info_log_result text [] info_log_buffer_sizes
      = if (text.length : Int) < 1024 * 1024 - 1 then text else [] := by
  simp only [info_log_result, info_log_buffer_sizes]
  split_ifs <;> first | rfl | omega

theorem info_log_requests_length_le (L : Nat) (sizes : List Int) :
    (info_log_requests L sizes).length ≤ sizes.length := by
  induction sizes with
  | nil => simp [info_log_requests]
  | cons n rest ih =>
    simp only [info_log_requests]
    split_ifs
    · simp
    · simpa using ih

/-- What `get_info_log` does on a live program, in closed form: the whole text
when it is shorter than `1024*1024 - 1` characters and the empty string
otherwise, after one activation attempt and the requests listed by
`info_log_requests`. -/
theorem get_info_log_eq (p : GL3ProgramObjectProvider) (w : World)
    (hlive : p.disposed = false) :
    get_info_log p w
      = ⟨.ok (if ((w.gl.info_log p.handle).length : Int) < 1024 * 1024 - 1
                then w.gl.info_log p.handle else []),
          p,
          { w with log := (w.log ++ Event.set_active ::
              List.map (fun n => Event.gl (GLCall.glGetProgramInfoLog p.handle n))
                (info_log_requests (w.gl.info_log p.handle).length info_log_buffer_sizes)) }⟩ := by
  have hloop : ∀ (result : List Char) (w : World),
      get_info_log_loop p.handle (16 * 1024) (by decide) result w
        = (info_log_result (w.gl.info_log p.handle) result info_log_buffer_sizes,
            { w with log := (w.log ++
                List.map (fun k => Event.gl (GLCall.glGetProgramInfoLog p.handle k))
                  (info_log_requests (w.gl.info_log p.handle).length
                    info_log_buffer_sizes)) }) :=
    get_info_log_loop_cons p.handle (16 * 1024) (32 * 1024) (by norm_num)
    (by norm_num) (by norm_num) (by norm_num) _
    (get_info_log_loop_cons p.handle (32 * 1024) (64 * 1024) (by norm_num)
      (by norm_num) (by norm_num) (by norm_num) _
    (get_info_log_loop_cons p.handle (64 * 1024) (128 * 1024) (by norm_num)
      (by norm_num) (by norm_num) (by norm_num) _
    (get_info_log_loop_cons p.handle (128 * 1024) (256 * 1024) (by norm_num)
      (by norm_num) (by norm_num) (by norm_num) _
    (get_info_log_loop_cons p.handle (256 * 1024) (512 * 1024) (by norm_num)
      (by norm_num) (by norm_num) (by norm_num) _
    (get_info_log_loop_cons p.handle (512 * 1024) (1024 * 1024) (by norm_num)
      (by norm_num) (by norm_num) (by norm_num) _
    (get_info_log_loop_cons p.handle (1024 * 1024) (2 * 1024 * 1024) (by norm_num)
      (by norm_num) (by norm_num) (by norm_num) _
    (get_info_log_loop_nil p.handle (2 * 1024 * 1024) (by norm_num) (by norm_num))))))))
  unfold get_info_log
  simp only [throw_if_disposed, hlive, OpenGL.set_active]
  rw [hloop, info_log_result_sizes]
  simp

theorem info_log_requests_is_start (L : Nat) (sizes : List Int) :
    info_log_requests L sizes <+: sizes := by
  induction sizes with
  | nil => simp [info_log_requests]
  | cons n rest ih =>
    simp only [info_log_requests]
    split_ifs
    · exact ⟨rest, rfl⟩
    · exact (List.prefix_cons_inj n).mpr ih

theorem long_text_length (L : Nat) : (long_text L).length = L := by
  simp [long_text]

/-- C6, as stated, fails: a text of `1024*1024` characters is longer than the
first buffer and shorter than 2 MiB, and `get_info_log()` returns the empty
string for it, not the text. -/
theorem info_log_counterexample :
    sample_program.disposed = false ∧
      16 * 1024 < (long_text (1024 * 1024)).length ∧
      (long_text (1024 * 1024)).length < 2 * 1024 * 1024 ∧
      (get_info_log sample_program (world_with_info_log (long_text (1024 * 1024)))).result
        = .ok [] ∧
      (get_info_log sample_program (world_with_info_log (long_text (1024 * 1024)))).result
        ≠ .ok (long_text (1024 * 1024)) := by
  have hres : (get_info_log sample_program
      (world_with_info_log (long_text (1024 * 1024)))).result = .ok [] := by
    rw [get_info_log_eq _ _ rfl]
    simp [world_with_info_log, long_text_length]
  refine ⟨rfl, ?_, ?_, hres, ?_⟩
  · rw [long_text_length]; norm_num
  · rw [long_text_length]; norm_num
  · rw [hres]
    intro e
    have hl := congrArg (fun r => match r with
      | Except.ok l => List.length l
      | Except.error _ => 0) e
    simp [long_text_length] at hl

/-- C6, amended: on a live program whose diagnostic text is longer than the
first buffer of 16 KiB and shorter than `1024*1024 - 1` characters (the
largest buffer asked with is 1 MiB), `get_info_log()` returns the whole text:
the returned string is the text itself, so its length is the length of the
text. -/
theorem info_log_complete_below_one_mebibyte (p : GL3ProgramObjectProvider) (w : World)
    (hlive : p.disposed = false)
    (hlong : 16 * 1024 < (w.gl.info_log p.handle).length)
    (hshort : (w.gl.info_log p.handle).length < 1024 * 1024 - 1) :
    (get_info_log p w).result = .ok (w.gl.info_log p.handle) ∧
      (get_info_log p w).result.toOption.map List.length
        = some (w.gl.info_log p.handle).length := by
  have hint : ((w.gl.info_log p.handle).length : Int) < 1024 * 1024 - 1 := by omega
  have e := get_info_log_eq p w hlive
  rw [if_pos hint] at e
  rw [e]
  exact ⟨rfl, rfl⟩

theorem info_log_complete_below_one_mebibyte_witness :
    sample_program.disposed = false ∧
      16 * 1024 < (long_text 20000).length ∧
      (long_text 20000).length < 1024 * 1024 - 1 ∧
      (get_info_log sample_program (world_with_info_log (long_text 20000))).result
        = .ok (long_text 20000) :=
  ⟨rfl, by rw [long_text_length]; norm_num, by rw [long_text_length]; norm_num,
    (info_log_complete_below_one_mebibyte sample_program
      (world_with_info_log (long_text 20000)) rfl
      (by show 16 * 1024 < (long_text 20000).length; rw [long_text_length]; norm_num)
      (by show (long_text 20000).length < 1024 * 1024 - 1
          rw [long_text_length]; norm_num)).1⟩

/-- C10: on a live program with a diagnostic text of `L` characters,
`get_info_log()` returns (the loop is total), after one activation attempt
and at most seven requests, made with the buffer sizes 16 KiB, 32 KiB, ...
in this order and stopping at the first in which the text fits; it leaves the
provider and the driver state as they were; it returns the whole text or the
empty string; and it returns the whole text exactly when `L < 2^20 - 1`. -/
theorem info_log_whole_or_empty (p : GL3ProgramObjectProvider) (w : World)
    (hlive : p.disposed = false) :
    (get_info_log p w).world.log
        = w.log ++ Event.set_active ::
            List.map (fun n => Event.gl (GLCall.glGetProgramInfoLog p.handle n))
              (info_log_requests (w.gl.info_log p.handle).length info_log_buffer_sizes) ∧
      info_log_requests (w.gl.info_log p.handle).length info_log_buffer_sizes
        <+: info_log_buffer_sizes ∧
      (info_log_requests (w.gl.info_log p.handle).length info_log_buffer_sizes).length ≤ 7 ∧
      (get_info_log p w).self = p ∧
      (get_info_log p w).world.gl = w.gl ∧
      ((get_info_log p w).result = .ok (w.gl.info_log p.handle) ∨
        (get_info_log p w).result = .ok []) ∧
      ((get_info_log p w).result = .ok (w.gl.info_log p.handle) ↔
        (w.gl.info_log p.handle).length < 2 ^ 20 - 1) := by
  rw [get_info_log_eq p w hlive]
  refine ⟨rfl, info_log_requests_is_start _ _, ?_, rfl, rfl, ?_, ?_⟩
  · exact info_log_requests_length_le _ info_log_buffer_sizes
  · by_cases h : ((w.gl.info_log p.handle).length : Int) < 1024 * 1024 - 1
    · left; simp only [if_pos h]
    · right; simp only [if_neg h]
  · by_cases h : ((w.gl.info_log p.handle).length : Int) < 1024 * 1024 - 1
    · simp only [if_pos h, true_iff]
      omega
    · simp only [if_neg h]
      constructor
      · intro e
        have hl : (w.gl.info_log p.handle).length = 0 := by
          have e2 : ([] : List Char) = w.gl.info_log p.handle := by simpa using e
          rw [← e2]; rfl
        omega
      · intro hlt
        omega

theorem info_log_whole_or_empty_witness :
    sample_program.disposed = false ∧
      (get_info_log sample_program sample_world).world.log
        = [Event.set_active, Event.gl (GLCall.glGetProgramInfoLog 3 (16 * 1024))] ∧
      ((get_info_log sample_program sample_world).result = .ok ['o', 'k'] ↔
        (2 : Nat) < 2 ^ 20 - 1) :=
  ⟨rfl, (info_log_whole_or_empty sample_program sample_world rfl).1,
    (info_log_whole_or_empty sample_program sample_world rfl).2.2.2.2.2.2⟩

/-! ## Context activation -/

theorem get_uniform_count_of_empty (p : GL3ProgramObjectProvider) (w : World)
    (hlive : p.disposed = false) (hempty : p.cached_uniforms = [])
    (hbuf : new_name_buffer
      (w.gl.program_iv p.handle ProgramParam.GL_ACTIVE_UNIFORM_MAX_LENGTH) = none) :
    get_uniform_count p w
      = ⟨.ok ((reported_uniforms w.gl p.handle).length : Int),
          { p with cached_uniforms := reported_uniforms w.gl p.handle },
          { w with log := w.log ++ uniform_fetch_events w.gl p.handle }⟩ := by
  simp [get_uniform_count, throw_if_disposed, hlive, hempty, fetch_uniforms,
    fetch_uniforms_loop, fetch_uniforms_fold, OpenGL.set_active, glGetProgramiv, World.record,
    reported_uniforms, uniform_fetch_events, hbuf]

theorem get_uniform_count_of_empty_fail (p : GL3ProgramObjectProvider) (w : World)
    (hlive : p.disposed = false) (hempty : p.cached_uniforms = []) (e : Error)
    (hbuf : new_name_buffer
      (w.gl.program_iv p.handle ProgramParam.GL_ACTIVE_UNIFORM_MAX_LENGTH) = some e) :
    get_uniform_count p w
      = ⟨.error e, p, { w with log := w.log ++ uniform_count_events p.handle }⟩ := by
  simp [get_uniform_count, throw_if_disposed, hlive, hempty, fetch_uniforms,
    OpenGL.set_active, glGetProgramiv, World.record, uniform_count_events, hbuf]

theorem get_uniform_count_of_cached (p : GL3ProgramObjectProvider) (w : World)
    (hlive : p.disposed = false) (hfull : p.cached_uniforms ≠ []) :
    get_uniform_count p w = ⟨.ok (p.cached_uniforms.length : Int), p, w⟩ := by
  simp [get_uniform_count, throw_if_disposed, hlive, hfull]

theorem get_attribute_count_of_empty (p : GL3ProgramObjectProvider) (w : World)
    (hlive : p.disposed = false) (hempty : p.cached_attribs = [])
    (hbuf : new_name_buffer
      (w.gl.program_iv p.handle ProgramParam.GL_ACTIVE_ATTRIBUTE_MAX_LENGTH) = none) :
    get_attribute_count p w
      = ⟨.ok ((reported_attributes w.gl p.handle).length : Int),
          { p with cached_attribs := reported_attributes w.gl p.handle },
          { w with log := w.log ++ attribute_fetch_events w.gl p.handle }⟩ := by
  simp [get_attribute_count, throw_if_disposed, hlive, hempty, fetch_attributes,
    fetch_attributes_loop, fetch_attributes_fold, OpenGL.set_active, glGetProgramiv,
    World.record, reported_attributes, attribute_fetch_events, hbuf]

theorem get_attribute_count_of_empty_fail (p : GL3ProgramObjectProvider) (w : World)
    (hlive : p.disposed = false) (hempty : p.cached_attribs = []) (e : Error)
    (hbuf : new_name_buffer
      (w.gl.program_iv p.handle ProgramParam.GL_ACTIVE_ATTRIBUTE_MAX_LENGTH) = some e) :
    get_attribute_count p w
      = ⟨.error e, p, { w with log := w.log ++ attribute_count_events p.handle }⟩ := by
  simp [get_attribute_count, throw_if_disposed, hlive, hempty, fetch_attributes,
    OpenGL.set_active, glGetProgramiv, World.record, attribute_count_events, hbuf]

theorem get_attribute_count_of_cached (p : GL3ProgramObjectProvider) (w : World)
    (hlive : p.disposed = false) (hfull : p.cached_attribs ≠ []) :
    get_attribute_count p w = ⟨.ok (p.cached_attribs.length : Int), p, w⟩ := by
  simp [get_attribute_count, throw_if_disposed, hlive, hfull]

/-- C7, as stated, fails: with a context that cannot be activated, `link()`
on a live program attempts the activation, does not look at its outcome,
calls `glLinkProgram` and returns normally. -/
theorem activation_counterexample :
    sample_program.disposed = false ∧
      lost_context_world.context_ok = false ∧
      (link sample_program lost_context_world).result = .ok () ∧
      (link sample_program lost_context_world).world.log
        = [Event.set_active, Event.gl (GLCall.glLinkProgram 3)] := by
  refine ⟨rfl, rfl, rfl, ?_⟩
  decide

/-- The two block-binding setters call the driver without any activation
attempt. -/
theorem block_binding_setters_skip_activation :
    (set_uniform_buffer_index 0 1 sample_program sample_world).world.log
        = [Event.gl (GLCall.glUniformBlockBinding 3 0 1)] ∧
      (set_storage_buffer_index 0 1 sample_program sample_world).world.log
        = [Event.gl (GLCall.glShaderStorageBlockBinding 3 0 1)] := by
  constructor <;> decide

/-- C7, amended: on a live program, every operation other than
`set_uniform_buffer_index` and `set_storage_buffer_index` (link, validate,
attach, detach, the binders, the status, location and buffer-index queries,
the reflection reads, `get_info_log`, `set_uniform1i`) only appends to the
trace, and what it appends is empty or starts with the activation attempt, so
no driver call comes before it. The outcome of the activation is not looked
at: with either outcome the operation gives the same result, leaves the same
provider, and makes the same driver calls with the same effect. -/
theorem activation_attempted_first (op : Op) (p : GL3ProgramObjectProvider) (w : World) (b : Bool)
    (hlive : p.disposed = false) (hop : op.is_block_binding = false) :
    (op.run p w).world.log = w.log ++ (op.run p w).added w ∧
      ((op.run p w).added w = [] ∨
        ((op.run p w).added w).head? = some Event.set_active) ∧
      op.run p (w.with_context b)
        = ⟨(op.run p w).result, (op.run p w).self, (op.run p w).world.with_context b⟩ := by
  cases op
  case get_info_log =>
    simp only [Op.run, Outcome.as, Outcome.added, World.with_context]
    rw [get_info_log_eq p w hlive, get_info_log_eq p _ hlive]
    simp
  case get_uniforms =>
    simp only [Op.run, Outcome.as, Outcome.added]
    by_cases hc : p.cached_uniforms = []
    · cases hbuf : new_name_buffer
          (w.gl.program_iv p.handle ProgramParam.GL_ACTIVE_UNIFORM_MAX_LENGTH) with
      | some e =>
        rw [get_uniforms_of_empty_fail p w hlive hc e hbuf,
          get_uniforms_of_empty_fail p (w.with_context b) hlive hc e hbuf]
        simp [uniform_count_events, World.with_context]
      | none =>
        rw [get_uniforms_of_empty p w hlive hc hbuf,
          get_uniforms_of_empty p (w.with_context b) hlive hc hbuf]
        simp [uniform_fetch_events, World.with_context]
    · rw [get_uniforms_of_cached p w hlive hc, get_uniforms_of_cached p (w.with_context b) hlive hc]
      simp [World.with_context]
  case get_uniform_count =>
    simp only [Op.run, Outcome.as, Outcome.added]
    by_cases hc : p.cached_uniforms = []
    · cases hbuf : new_name_buffer
          (w.gl.program_iv p.handle ProgramParam.GL_ACTIVE_UNIFORM_MAX_LENGTH) with
      | some e =>
        rw [get_uniform_count_of_empty_fail p w hlive hc e hbuf,
          get_uniform_count_of_empty_fail p (w.with_context b) hlive hc e hbuf]
        simp [uniform_count_events, World.with_context]
      | none =>
        rw [get_uniform_count_of_empty p w hlive hc hbuf,
          get_uniform_count_of_empty p (w.with_context b) hlive hc hbuf]
        simp [uniform_fetch_events, World.with_context]
    · rw [get_uniform_count_of_cached p w hlive hc, get_uniform_count_of_cached p (w.with_context b) hlive hc]
      simp [World.with_context]
  case get_attributes =>
    simp only [Op.run, Outcome.as, Outcome.added]
    by_cases hc : p.cached_attribs = []
    · cases hbuf : new_name_buffer
          (w.gl.program_iv p.handle ProgramParam.GL_ACTIVE_ATTRIBUTE_MAX_LENGTH) with
      | some e =>
        rw [get_attributes_of_empty_fail p w hlive hc e hbuf,
          get_attributes_of_empty_fail p (w.with_context b) hlive hc e hbuf]
        simp [attribute_count_events, World.with_context]
      | none =>
        rw [get_attributes_of_empty p w hlive hc hbuf,
          get_attributes_of_empty p (w.with_context b) hlive hc hbuf]
        simp [attribute_fetch_events, World.with_context]
    · rw [get_attributes_of_cached p w hlive hc, get_attributes_of_cached p (w.with_context b) hlive hc]
      simp [World.with_context]
  case get_attribute_count =>
    simp only [Op.run, Outcome.as, Outcome.added]
    by_cases hc : p.cached_attribs = []
    · cases hbuf : new_name_buffer
          (w.gl.program_iv p.handle ProgramParam.GL_ACTIVE_ATTRIBUTE_MAX_LENGTH) with
      | some e =>
        rw [get_attribute_count_of_empty_fail p w hlive hc e hbuf,
          get_attribute_count_of_empty_fail p (w.with_context b) hlive hc e hbuf]
        simp [attribute_count_events, World.with_context]
      | none =>
        rw [get_attribute_count_of_empty p w hlive hc hbuf,
          get_attribute_count_of_empty p (w.with_context b) hlive hc hbuf]
        simp [attribute_fetch_events, World.with_context]
    · rw [get_attribute_count_of_cached p w hlive hc, get_attribute_count_of_cached p (w.with_context b) hlive hc]
      simp [World.with_context]
  case get_uniform_buffer_size =>
    cases h : w.has_glGetActiveUniformBlockiv <;>
      simp [Op.run, Outcome.as, Outcome.added, World.with_context, get_uniform_buffer_size,
        throw_if_disposed, hlive, OpenGL.set_active, glGetActiveUniformBlockiv, World.record, h]
  case get_uniform_buffer_index =>
    cases h : w.has_glGetUniformBlockIndex <;>
      simp [Op.run, Outcome.as, Outcome.added, World.with_context, get_uniform_buffer_index,
        throw_if_disposed, hlive, OpenGL.set_active, glGetUniformBlockIndex, World.record, h]
  case get_storage_buffer_index =>
    cases h : w.has_glGetProgramResourceIndex <;>
      simp [Op.run, Outcome.as, Outcome.added, World.with_context, get_storage_buffer_index,
        throw_if_disposed, hlive, OpenGL.set_active, glGetProgramResourceIndex, World.record, h]
  case set_uniform1i location p1 =>
    by_cases hl : location = -1
    · simp [Op.run, Outcome.as, Outcome.added, World.with_context, set_uniform1i,
        throw_if_disposed, hlive, hl]
    · by_cases hcur : p.handle = w.gl.current_program
      · simp [Op.run, Outcome.as, Outcome.added, World.with_context, set_uniform1i,
          throw_if_disposed, hlive, hl, OpenGL.set_active, World.record,
          ProgramObjectStateTracker.construct, ProgramObjectStateTracker.destruct,
          glGetIntegerv_CURRENT_PROGRAM, glUseProgram, glUniform1i, hcur]
      · simp [Op.run, Outcome.as, Outcome.added, World.with_context, set_uniform1i,
          throw_if_disposed, hlive, hl, OpenGL.set_active, World.record,
          ProgramObjectStateTracker.construct, ProgramObjectStateTracker.destruct,
          glGetIntegerv_CURRENT_PROGRAM, glUseProgram, glUniform1i, hcur]
  all_goals
    simp [Op.run, Outcome.as, Outcome.added, World.with_context, get_handle, get_link_status,
      get_validate_status, get_shaders, get_uniform_location, get_attribute_location,
      get_uniform_buffer_size, get_uniform_buffer_index, get_storage_buffer_index, attach,
      detach, bind_attribute_location, bind_frag_data_location, link, validate, set_uniform1i,
      throw_if_disposed, hlive, OpenGL.set_active, glGetProgramiv, glGetUniformLocation,
      glGetAttribLocation, glGetActiveUniformBlockiv, glGetUniformBlockIndex,
      glGetProgramResourceIndex, glAttachShader, glDetachShader, glBindAttribLocation,
      glBindFragDataLocation, glLinkProgram, glValidateProgram, World.record, World.command,
      ProgramObjectStateTracker.construct, ProgramObjectStateTracker.destruct,
      glGetIntegerv_CURRENT_PROGRAM, glUseProgram, glUniform1i, Op.is_block_binding] at hop ⊢

theorem activation_attempted_first_witness :
    sample_program.disposed = false ∧ Op.link.is_block_binding = false ∧
      ((Op.link.run sample_program sample_world).added sample_world = [] ∨
        ((Op.link.run sample_program sample_world).added sample_world).head?
          = some Event.set_active) ∧
      Op.link.run sample_program (sample_world.with_context false)
        = ⟨(Op.link.run sample_program sample_world).result,
            (Op.link.run sample_program sample_world).self,
            (Op.link.run sample_program sample_world).world.with_context false⟩ :=
  ⟨rfl, rfl, (activation_attempted_first Op.link sample_program sample_world false rfl rfl).2⟩

end clan
